import Mathlib

/-!
Verification of the valuation engine of the baseball repository.

The engine lives in the second half of the bundled source file
(functions calculateBaseValues and applyDisplayAdjustments, the
exclusion-aware revision).  The embedding below follows that source
line by line:

* JavaScript numbers are modelled as exact rationals; Math.sqrt, which
  is irrational-valued, is modelled as an explicit function parameter
  (sq : Q -> Q) of the full recompute.  Theorems hold for every choice
  of this parameter unless they state a property of it; concrete runs
  instantiate it with jsSqrt below.
* An adjustment map keyed by strings of shape id-stat is modelled as a
  function of the pair (id, stat); the five stat names are pairwise
  non-overlapping so the string keys are in bijection with the pairs.
  The committed map is read with a default of 0 (source: || 0), the
  pending map must distinguish presence (source: hasOwnProperty), so it
  returns an Option.
* Player records are a single structure carrying every field the
  pipeline ever writes; fields not yet written hold the stated default
  (the source leaves them undefined and never reads them before
  writing them).
* The constants snapshot of the source can be a full object, the empty
  object (the early returns) or null (the no-active-players return);
  ConstantsOut has one constructor for each.
* Array.prototype.sort is stable (ECMAScript); sorting with the
  comparator (a, b) => b.rawZ - a.rawZ is therefore the unique order
  that is descending in rawZ and preserves the original order inside
  every score class.  sortByZ realises it as an insertion sort on
  index-tagged entries ordered lexicographically by (rawZ descending,
  original index ascending).
-/

/-- The five stat names of the engine. -/
inductive Stat where
  | ERA
  | WHIP
  | W
  | SV
  | SO
deriving DecidableEq

/-- A raw input record: identity, the five raw stats and the optional
workload measure (source fields Name, PlayerId, ERA, WHIP, W, SV, SO, IP). -/
structure RawPlayer where
  Name : String
  PlayerId : String
  ERA : ℚ
  WHIP : ℚ
  W : ℚ
  SV : ℚ
  SO : ℚ
  IP : Option ℚ
deriving DecidableEq

/-- A player record as built up by the pipeline.  Field names follow the
source (the committed stats are the source fields prefixed with c, the
impact values those prefixed with v, the per-stat edit statuses the
fields prefixed with status). -/
structure Player where
  Name : String
  PlayerId : String
  ERA : ℚ
  WHIP : ℚ
  W : ℚ
  SV : ℚ
  SO : ℚ
  IP : ℚ
  isExcluded : Bool
  cERA : ℚ
  cWHIP : ℚ
  cW : ℚ
  cSV : ℚ
  cSO : ℚ
  vERA : ℚ := 0
  vWHIP : ℚ := 0
  vW : ℚ := 0
  vSV : ℚ := 0
  vSO : ℚ := 0
  rawZ : ℚ := 0
  valOverReplacement : ℚ := 0
  Value : ℚ := 0
  statusERA : Option String := none
  statusWHIP : Option String := none
  statusW : Option String := none
  statusSV : Option String := none
  statusSO : Option String := none
deriving DecidableEq

/-- The five committed-stat means (source object means). -/
structure Means5 where
  ERA : ℚ
  WHIP : ℚ
  W : ℚ
  SV : ℚ
  SO : ℚ
deriving DecidableEq

/-- A package of one rational per impact metric (source objects iMeans
and iStds, keyed by the five impact-value names). -/
structure VMeans where
  vERA : ℚ
  vWHIP : ℚ
  vW : ℚ
  vSV : ℚ
  vSO : ℚ
deriving DecidableEq

/-- The frozen constants snapshot (source object constants of the main
return). -/
structure ValConstants where
  rateMeansERA : ℚ
  rateMeansWHIP : ℚ
  valMeans : VMeans
  valStds : VMeans
  replacementLevelZ : ℚ
  positiveSum : ℚ
deriving DecidableEq

/-- The three shapes the constants of a full recompute can take in the
source: null, the empty object of the degenerate early returns, or a
full snapshot. -/
inductive ConstantsOut where
  | jnull
  | jempty
  | jfull (c : ValConstants)
deriving DecidableEq

/-- Result of a full recompute (source return value with fields players
and constants). -/
structure CalcResult where
  players : List Player
  constants : ConstantsOut
deriving DecidableEq

/-- Mean of a list of rationals: sum divided by count, the population
mean of the source aggregation passes. -/
def meanQ (xs : List ℚ) : ℚ := xs.sum / xs.length

/-- Population variance as the source computes it: mean of squares minus
square of the mean. -/
def popVarQ (xs : List ℚ) : ℚ := meanQ (xs.map (fun x => x * x)) - meanQ xs * meanQ xs

/-- One z-score term: guarded by the truthiness of the standard
deviation (source: iStds[k] ? (v - iMeans[k]) / iStds[k] : 0). -/
def zTerm (std mean v : ℚ) : ℚ := if std ≠ 0 then (v - mean) / std else 0

/-- Validity filter of the ingest step (source: .filter(p => p.Name &&
p.PlayerId); the empty string is the falsy string). -/
def validRaw (p : RawPlayer) : Bool := p.Name != "" && p.PlayerId != ""

/-- First pass of the full recompute: apply committed deltas, normalise
the workload measure, tag exclusion (source lines building allPlayers). -/
def augmentPlayer (committedAdjustments : String → Stat → ℚ)
    (excludedPlayerIds : String → Bool) (p : RawPlayer) : Player :=
  { Name := p.Name
    PlayerId := p.PlayerId
    ERA := p.ERA
    WHIP := p.WHIP
    W := p.W
    SV := p.SV
    SO := p.SO
    IP := p.IP.getD 0
    isExcluded := excludedPlayerIds p.PlayerId
    cERA := p.ERA + committedAdjustments p.PlayerId Stat.ERA
    cWHIP := p.WHIP + committedAdjustments p.PlayerId Stat.WHIP
    cW := p.W + committedAdjustments p.PlayerId Stat.W
    cSV := p.SV + committedAdjustments p.PlayerId Stat.SV
    cSO := p.SO + committedAdjustments p.PlayerId Stat.SO }

/-- The filtered and augmented entity list (source allPlayers). -/
def allPlayersOf (rawData : List RawPlayer) (committedAdjustments : String → Stat → ℚ)
    (excludedPlayerIds : String → Bool) : List Player :=
  (rawData.filter validRaw).map (augmentPlayer committedAdjustments excludedPlayerIds)

/-- The active partition (source activePlayers). -/
def activePlayersOf (rawData : List RawPlayer) (committedAdjustments : String → Stat → ℚ)
    (excludedPlayerIds : String → Bool) : List Player :=
  (allPlayersOf rawData committedAdjustments excludedPlayerIds).filter (fun p => !p.isExcluded)

/-- The excluded partition (source excludedPlayers). -/
def excludedPlayersOf (rawData : List RawPlayer) (committedAdjustments : String → Stat → ℚ)
    (excludedPlayerIds : String → Bool) : List Player :=
  (allPlayersOf rawData committedAdjustments excludedPlayerIds).filter (fun p => p.isExcluded)

/-- Means of the committed stats over a given population (source means,
computed over the active partition only). -/
def meansOf (l : List Player) : Means5 :=
  { ERA := meanQ (l.map (fun p => p.cERA))
    WHIP := meanQ (l.map (fun p => p.cWHIP))
    W := meanQ (l.map (fun p => p.cW))
    SV := meanQ (l.map (fun p => p.cSV))
    SO := meanQ (l.map (fun p => p.cSO)) }

/-- Impact transform of one player: rate stats become mean-relative,
workload-scaled counting equivalents, counting stats pass through
(source blocks computing the v-prefixed values, identical for active
and excluded players). -/
def impactPlayer (means : Means5) (p : Player) : Player :=
  { p with
    vERA := (means.ERA - p.cERA) * (p.IP / 9)
    vWHIP := (means.WHIP - p.cWHIP) * p.IP
    vW := p.cW
    vSV := p.cSV
    vSO := p.cSO }

/-- Active players with impact values (source intermediateActive). -/
def intermediateActiveOf (rawData : List RawPlayer) (committedAdjustments : String → Stat → ℚ)
    (excludedPlayerIds : String → Bool) : List Player :=
  (activePlayersOf rawData committedAdjustments excludedPlayerIds).map
    (impactPlayer (meansOf (activePlayersOf rawData committedAdjustments excludedPlayerIds)))

/-- Means of the five impact metrics (source iMeans, over the active
partition). -/
def vMeansOf (l : List Player) : VMeans :=
  { vERA := meanQ (l.map (fun p => p.vERA))
    vWHIP := meanQ (l.map (fun p => p.vWHIP))
    vW := meanQ (l.map (fun p => p.vW))
    vSV := meanQ (l.map (fun p => p.vSV))
    vSO := meanQ (l.map (fun p => p.vSO)) }

/-- Standard deviations of the five impact metrics (source iStds): the
square-root parameter applied to the population variance. -/
def vStdsOf (sq : ℚ → ℚ) (l : List Player) : VMeans :=
  { vERA := sq (popVarQ (l.map (fun p => p.vERA)))
    vWHIP := sq (popVarQ (l.map (fun p => p.vWHIP)))
    vW := sq (popVarQ (l.map (fun p => p.vW)))
    vSV := sq (popVarQ (l.map (fun p => p.vSV)))
    vSO := sq (popVarQ (l.map (fun p => p.vSO))) }

/-- Composite score of one player: the five guarded z-terms summed
(source zSum, identical formula for active and excluded players). -/
def zscorePlayer (iMeans iStds : VMeans) (p : Player) : Player :=
  { p with
    rawZ := zTerm iStds.vERA iMeans.vERA p.vERA + zTerm iStds.vWHIP iMeans.vWHIP p.vWHIP +
      zTerm iStds.vW iMeans.vW p.vW + zTerm iStds.vSV iMeans.vSV p.vSV +
      zTerm iStds.vSO iMeans.vSO p.vSO }

/-- Active players with composite scores (source scoredActive). -/
def scoredActiveOf (sq : ℚ → ℚ) (rawData : List RawPlayer)
    (committedAdjustments : String → Stat → ℚ) (excludedPlayerIds : String → Bool) : List Player :=
  (intermediateActiveOf rawData committedAdjustments excludedPlayerIds).map
    (zscorePlayer (vMeansOf (intermediateActiveOf rawData committedAdjustments excludedPlayerIds))
      (vStdsOf sq (intermediateActiveOf rawData committedAdjustments excludedPlayerIds)))

/-- Excluded players with shadow scores computed from the active
means and standard deviations (source scoredExcluded; the source inlines
the impact and z-score formulas, which are the same as for active
players). -/
def scoredExcludedOf (sq : ℚ → ℚ) (rawData : List RawPlayer)
    (committedAdjustments : String → Stat → ℚ) (excludedPlayerIds : String → Bool) : List Player :=
  (excludedPlayersOf rawData committedAdjustments excludedPlayerIds).map (fun p =>
    zscorePlayer (vMeansOf (intermediateActiveOf rawData committedAdjustments excludedPlayerIds))
      (vStdsOf sq (intermediateActiveOf rawData committedAdjustments excludedPlayerIds))
      (impactPlayer (meansOf (activePlayersOf rawData committedAdjustments excludedPlayerIds)) p))

/-- The lexicographic order realising the stable descending sort of the
source comparator (a, b) => b.rawZ - a.rawZ on index-tagged entries. -/
def sortLe (a b : ℕ × Player) : Prop :=
  b.2.rawZ < a.2.rawZ ∨ (a.2.rawZ = b.2.rawZ ∧ a.1 ≤ b.1)

instance : DecidableRel sortLe := fun a b => by
  unfold sortLe
  infer_instance

/-- The stable sort of the source (Array.prototype.sort with the
descending rawZ comparator). -/
def sortByZ (l : List Player) : List Player :=
  ((l.enum).insertionSort sortLe).map Prod.snd

/-- Scored players of both partitions, sorted (source allScored after
the sort call). -/
def allScoredOf (sq : ℚ → ℚ) (rawData : List RawPlayer)
    (committedAdjustments : String → Stat → ℚ) (excludedPlayerIds : String → Bool) : List Player :=
  sortByZ (scoredActiveOf sq rawData committedAdjustments excludedPlayerIds ++
    scoredExcludedOf sq rawData committedAdjustments excludedPlayerIds)

/-- The sorted active subset used for the replacement baseline (source
sortedActiveOnly). -/
def sortedActiveOnlyOf (sq : ℚ → ℚ) (rawData : List RawPlayer)
    (committedAdjustments : String → Stat → ℚ) (excludedPlayerIds : String → Bool) : List Player :=
  (allScoredOf sq rawData committedAdjustments excludedPlayerIds).filter (fun p => !p.isExcluded)

/-- Replacement-level score (source replacementLevelZ): the score at
index min(200, activeCount - 1) of the sorted active subset, with the
sentinel -999 when the lookup misses. -/
def replacementLevelZOf (sq : ℚ → ℚ) (rawData : List RawPlayer)
    (committedAdjustments : String → Stat → ℚ) (excludedPlayerIds : String → Bool) : ℚ :=
  match (sortedActiveOnlyOf sq rawData committedAdjustments excludedPlayerIds).get?
      (min 200 ((sortedActiveOnlyOf sq rawData committedAdjustments excludedPlayerIds).length - 1)) with
  | some p => p.rawZ
  | none => -999

/-- Sorted players with value above replacement (source
evaluatedPlayers). -/
def evaluatedPlayersOf (sq : ℚ → ℚ) (rawData : List RawPlayer)
    (committedAdjustments : String → Stat → ℚ) (excludedPlayerIds : String → Bool) : List Player :=
  (allScoredOf sq rawData committedAdjustments excludedPlayerIds).map (fun p =>
    { p with valOverReplacement :=
        p.rawZ - replacementLevelZOf sq rawData committedAdjustments excludedPlayerIds })

/-- Sum of the strictly positive values above replacement over the
active partition (source positiveSum). -/
def positiveSumOf (sq : ℚ → ℚ) (rawData : List RawPlayer)
    (committedAdjustments : String → Stat → ℚ) (excludedPlayerIds : String → Bool) : ℚ :=
  (((evaluatedPlayersOf sq rawData committedAdjustments excludedPlayerIds).filter
      (fun p => !p.isExcluded && decide (0 < p.valOverReplacement))).map
    (fun p => p.valOverReplacement)).sum

/-- Monetary value of one player (source finalPlayers map body: the
proportional share for active players with positive value above
replacement when the positive sum is positive, zero otherwise, and
forced to zero for excluded players). -/
def valuePlayer (positiveSum poolAmount : ℚ) (p : Player) : Player :=
  let dollarValue : ℚ :=
    if !p.isExcluded && decide (0 < p.valOverReplacement) && decide (0 < positiveSum) then
      p.valOverReplacement / positiveSum * poolAmount
    else 0
  let dollarValueFinal : ℚ := if p.isExcluded then 0 else dollarValue
  { p with Value := dollarValueFinal }

/-- The constants snapshot of the main return (source constants). -/
def constantsOf (sq : ℚ → ℚ) (rawData : List RawPlayer)
    (committedAdjustments : String → Stat → ℚ) (excludedPlayerIds : String → Bool) : ValConstants :=
  { rateMeansERA := (meansOf (activePlayersOf rawData committedAdjustments excludedPlayerIds)).ERA
    rateMeansWHIP := (meansOf (activePlayersOf rawData committedAdjustments excludedPlayerIds)).WHIP
    valMeans := vMeansOf (intermediateActiveOf rawData committedAdjustments excludedPlayerIds)
    valStds := vStdsOf sq (intermediateActiveOf rawData committedAdjustments excludedPlayerIds)
    replacementLevelZ := replacementLevelZOf sq rawData committedAdjustments excludedPlayerIds
    positiveSum := positiveSumOf sq rawData committedAdjustments excludedPlayerIds }

/-- The full recompute (source calculateBaseValues, exclusion-aware
revision; the source default for poolAmount is 1500 and for the
exclusion set the empty set). -/
def calculateBaseValues (sq : ℚ → ℚ) (rawData : List RawPlayer)
    (committedAdjustments : String → Stat → ℚ) (poolAmount : ℚ)
    (excludedPlayerIds : String → Bool) : CalcResult :=
  if rawData.isEmpty then { players := [], constants := ConstantsOut.jempty }
  else if (allPlayersOf rawData committedAdjustments excludedPlayerIds).isEmpty then
    { players := [], constants := ConstantsOut.jempty }
  else if (activePlayersOf rawData committedAdjustments excludedPlayerIds).isEmpty then
    { players := (allPlayersOf rawData committedAdjustments excludedPlayerIds).map
        (fun p => { p with Value := 0 })
      constants := ConstantsOut.jnull }
  else
    { players := (evaluatedPlayersOf sq rawData committedAdjustments excludedPlayerIds).map
        (valuePlayer (positiveSumOf sq rawData committedAdjustments excludedPlayerIds) poolAmount)
      constants :=
        ConstantsOut.jfull (constantsOf sq rawData committedAdjustments excludedPlayerIds) }

/-- Per-stat delta resolution and edit status of the projector (source
closure processStat): the pending delta wins when the pending key
exists, else the committed delta; the status is pending on any pending
key, else changed on a non-zero delta, else default. -/
def processStat (pendingAdjustments : String → Stat → Option ℚ)
    (committedAdjustments : String → Stat → ℚ) (pid : String) (statName : Stat)
    (rawVal : ℚ) : ℚ × String :=
  let isPending := (pendingAdjustments pid statName).isSome
  let pendingVal := (pendingAdjustments pid statName).getD 0
  let committedVal := committedAdjustments pid statName
  let currentDelta := if isPending then pendingVal else committedVal
  let isAdjusted : Bool := decide (currentDelta ≠ 0)
  let status := if isPending then "pending" else if isAdjusted then "changed" else "default"
  (rawVal + currentDelta, status)

/-- The composite score the projector recomputes from the frozen
constants and the five effective stat values (source zSum of
applyDisplayAdjustments). -/
def projZSum (c : ValConstants) (eraVal whipVal wVal svVal soVal ip : ℚ) : ℚ :=
  zTerm c.valStds.vERA c.valMeans.vERA ((c.rateMeansERA - eraVal) * (ip / 9)) +
    zTerm c.valStds.vWHIP c.valMeans.vWHIP ((c.rateMeansWHIP - whipVal) * ip) +
    zTerm c.valStds.vW c.valMeans.vW wVal +
    zTerm c.valStds.vSV c.valMeans.vSV svVal +
    zTerm c.valStds.vSO c.valMeans.vSO soVal

/-- The per-player body of the projector (source map body of
applyDisplayAdjustments).  The Option argument carries the destructured
constants: none models destructuring the empty object, in which case
the guard of the provisional value fails and the stored Value is kept. -/
def projectPlayer (pendingAdjustments : String → Stat → Option ℚ)
    (committedAdjustments : String → Stat → ℚ) (cOpt : Option ValConstants)
    (poolAmount : ℚ) (p : Player) : Player :=
  if p.isExcluded then { p with Value := 0 }
  else
    let era := processStat pendingAdjustments committedAdjustments p.PlayerId Stat.ERA p.ERA
    let whip := processStat pendingAdjustments committedAdjustments p.PlayerId Stat.WHIP p.WHIP
    let w := processStat pendingAdjustments committedAdjustments p.PlayerId Stat.W p.W
    let sv := processStat pendingAdjustments committedAdjustments p.PlayerId Stat.SV p.SV
    let so := processStat pendingAdjustments committedAdjustments p.PlayerId Stat.SO p.SO
    let projValue : ℚ :=
      match cOpt with
      | some c =>
        if c.positiveSum ≠ 0 then
          let zSum := projZSum c era.1 whip.1 w.1 sv.1 so.1 p.IP
          let valOverRep := zSum - c.replacementLevelZ
          if 0 < valOverRep then valOverRep / c.positiveSum * poolAmount else 0
        else p.Value
      | none => p.Value
    { p with
      ERA := era.1
      WHIP := whip.1
      W := w.1
      SV := sv.1
      SO := so.1
      Value := projValue
      statusERA := some era.2
      statusWHIP := some whip.2
      statusW := some w.2
      statusSV := some sv.2
      statusSO := some so.2 }

/-- The incremental projector (source applyDisplayAdjustments): null
constants return the input unchanged, otherwise every player is mapped
through the projection body (the source default for poolAmount is
1500). -/
def applyDisplayAdjustments (basePlayers : List Player)
    (pendingAdjustments : String → Stat → Option ℚ)
    (committedAdjustments : String → Stat → ℚ) (constants : ConstantsOut)
    (poolAmount : ℚ) : List Player :=
  match constants with
  | ConstantsOut.jnull => basePlayers
  | ConstantsOut.jempty =>
    basePlayers.map (projectPlayer pendingAdjustments committedAdjustments none poolAmount)
  | ConstantsOut.jfull c =>
    basePlayers.map (projectPlayer pendingAdjustments committedAdjustments (some c) poolAmount)

/-! ### Concrete instantiation helpers -/

/-- A computable stand-in for Math.sqrt used when running the engine on
concrete inputs: zero on non-positive arguments, the identity on
positive ones.  Every concrete statement proved below is invariant
under the choice of the square-root stand-in on positive arguments,
because all z-scores of a run scale uniformly by the reciprocal of each
standard deviation and the monetary values are ratios of such scores;
the generic theorems are stated for an arbitrary square-root
parameter. -/
def jsSqrt (q : ℚ) : ℚ := if q ≤ 0 then 0 else q

/-- The everywhere-zero committed-adjustment map. -/
def zeroAdj : String → Stat → ℚ := fun _ _ => 0

/-- The empty pending-adjustment map. -/
def noPending : String → Stat → Option ℚ := fun _ _ => none

/-- The empty exclusion set. -/
def noExcl : String → Bool := fun _ => false

theorem jsSqrt_nonneg (q : ℚ) : 0 ≤ jsSqrt q := by
  unfold jsSqrt
  split
  · exact le_refl 0
  · linarith [not_le.mp (by assumption : ¬ q ≤ 0)]

/-! ### Order facts for the stable sort -/

instance : IsTotal (ℕ × Player) sortLe := by
  constructor
  intro a b
  unfold sortLe
  rcases lt_trichotomy a.2.rawZ b.2.rawZ with h | h | h
  · exact Or.inr (Or.inl h)
  · rcases Nat.le_total a.1 b.1 with h1 | h1
    · exact Or.inl (Or.inr ⟨h, h1⟩)
    · exact Or.inr (Or.inr ⟨h.symm, h1⟩)
  · exact Or.inl (Or.inl h)

instance : IsTrans (ℕ × Player) sortLe := by
  constructor
  intro a b c hab hbc
  unfold sortLe at *
  rcases hab with h1 | ⟨h1, h1i⟩
  · rcases hbc with h2 | ⟨h2, _⟩
    · exact Or.inl (h2.trans h1)
    · exact Or.inl (h2 ▸ h1)
  · rcases hbc with h2 | ⟨h2, h2i⟩
    · exact Or.inl (by rw [h1]; exact h2)
    · exact Or.inr ⟨h1.trans h2, h1i.trans h2i⟩

theorem sortByZ_perm (l : List Player) : List.Perm (sortByZ l) l := by
  unfold sortByZ
  have h := (List.perm_insertionSort sortLe l.enum).map Prod.snd
  rwa [List.enum_map_snd] at h

theorem mem_sortByZ {x : Player} {l : List Player} : x ∈ sortByZ l ↔ x ∈ l :=
  (sortByZ_perm l).mem_iff

theorem sortByZ_length (l : List Player) : (sortByZ l).length = l.length :=
  (sortByZ_perm l).length_eq

theorem sortByZ_sorted (l : List Player) :
    (sortByZ l).Pairwise (fun a b => b.rawZ ≤ a.rawZ) := by
  unfold sortByZ
  have hs : (l.enum.insertionSort sortLe).Pairwise sortLe :=
    List.sorted_insertionSort sortLe l.enum
  refine List.Pairwise.map Prod.snd ?_ hs
  intro a b hab
  rcases hab with h | ⟨h, _⟩
  · exact le_of_lt h
  · exact le_of_eq h.symm

/-- Strict ordering of index-tagged players by original position. -/
@[reducible] def idxLt (a b : ℕ × Player) : Prop := a.1 < b.1

instance : IsAntisymm (ℕ × Player) idxLt :=
  ⟨fun _ _ h1 h2 => ((Nat.lt_asymm h1) h2).elim⟩

theorem sortByZ_filter_class (l : List Player) (z : ℚ) :
    (sortByZ l).filter (fun p => decide (p.rawZ = z)) =
      l.filter (fun p => decide (p.rawZ = z)) := by
  unfold sortByZ
  rw [List.filter_map Prod.snd (l.enum.insertionSort sortLe)]
  conv_rhs => rw [← List.enum_map_snd l, List.filter_map Prod.snd l.enum]
  congr 1
  have hperm :
      List.Perm
        ((l.enum.insertionSort sortLe).filter ((fun p => decide (p.rawZ = z)) ∘ Prod.snd))
        (l.enum.filter ((fun p => decide (p.rawZ = z)) ∘ Prod.snd)) :=
    (List.perm_insertionSort sortLe l.enum).filter _
  have hsorted : (l.enum.insertionSort sortLe).Pairwise sortLe :=
    List.sorted_insertionSort sortLe l.enum
  have hfst : ((l.enum.insertionSort sortLe).map Prod.fst).Nodup := by
    have hp : List.Perm ((l.enum.insertionSort sortLe).map Prod.fst) (l.enum.map Prod.fst) :=
      (List.perm_insertionSort sortLe l.enum).map Prod.fst
    rw [List.enum_map_fst] at hp
    exact hp.nodup_iff.mpr (List.nodup_range _)
  have hne : (l.enum.insertionSort sortLe).Pairwise (fun a b => a.1 ≠ b.1) :=
    List.pairwise_map.mp hfst
  have hs1 :
      ((l.enum.insertionSort sortLe).filter
        ((fun p => decide (p.rawZ = z)) ∘ Prod.snd)).Pairwise idxLt := by
    have hboth := (hsorted.and hne).filter ((fun p => decide (p.rawZ = z)) ∘ Prod.snd)
    refine hboth.imp_of_mem ?_
    intro a b ha hb hab
    have haz : a.2.rawZ = z := by
      have := (List.mem_filter.mp ha).2
      simpa using this
    have hbz : b.2.rawZ = z := by
      have := (List.mem_filter.mp hb).2
      simpa using this
    rcases hab.1 with h | ⟨_, hle⟩
    · rw [haz, hbz] at h
      exact absurd h (lt_irrefl z)
    · exact lt_of_le_of_ne hle hab.2
  have hs2 : (l.enum.filter ((fun p => decide (p.rawZ = z)) ∘ Prod.snd)).Pairwise idxLt := by
    have henum : l.enum.Pairwise idxLt := by
      have h1 : (l.enum.map Prod.fst).Pairwise (fun a b => a < b) := by
        rw [List.enum_map_fst]
        exact List.pairwise_lt_range _
      exact List.Pairwise.of_map Prod.fst (fun a b h => h) h1
    exact henum.filter _
  exact List.eq_of_perm_of_sorted hperm hs1 hs2

/-! ### Branch characterisation of the full recompute -/

variable {sq : ℚ → ℚ} {raw : List RawPlayer} {adj : String → Stat → ℚ} {excl : String → Bool}
variable {pool : ℚ} {c : ValConstants}

theorem allPlayersOf_ne_of_active (h : activePlayersOf raw adj excl ≠ []) :
    allPlayersOf raw adj excl ≠ [] := by
  intro hall
  apply h
  unfold activePlayersOf
  rw [hall]
  rfl

theorem raw_ne_of_all (h : allPlayersOf raw adj excl ≠ []) : raw ≠ [] := by
  intro hraw
  apply h
  unfold allPlayersOf
  rw [hraw]
  rfl

theorem calculateBaseValues_main (sq : ℚ → ℚ) (pool : ℚ)
    (h : activePlayersOf raw adj excl ≠ []) :
    calculateBaseValues sq raw adj pool excl =
      { players := (evaluatedPlayersOf sq raw adj excl).map
          (valuePlayer (positiveSumOf sq raw adj excl) pool)
        constants := ConstantsOut.jfull (constantsOf sq raw adj excl) } := by
  unfold calculateBaseValues
  have h2 : (allPlayersOf raw adj excl).isEmpty = false :=
    List.isEmpty_eq_false.mpr (allPlayersOf_ne_of_active h)
  have h1 : raw.isEmpty = false :=
    List.isEmpty_eq_false.mpr (raw_ne_of_all (allPlayersOf_ne_of_active h))
  have h3 : (activePlayersOf raw adj excl).isEmpty = false := List.isEmpty_eq_false.mpr h
  rw [h1, h2, h3]
  rfl

theorem calculateBaseValues_degenerate (sq : ℚ → ℚ) (pool : ℚ)
    (h : activePlayersOf raw adj excl = []) :
    calculateBaseValues sq raw adj pool excl =
        { players := [], constants := ConstantsOut.jempty } ∨
      calculateBaseValues sq raw adj pool excl =
        { players := (allPlayersOf raw adj excl).map (fun p => { p with Value := 0 })
          constants := ConstantsOut.jnull } := by
  unfold calculateBaseValues
  split
  · exact Or.inl rfl
  · split
    · exact Or.inl rfl
    · split
      · exact Or.inr rfl
      · next h3 =>
        exfalso
        apply h3
        rw [h]
        rfl

theorem constants_jfull_inv
    (hc : (calculateBaseValues sq raw adj pool excl).constants = ConstantsOut.jfull c) :
    activePlayersOf raw adj excl ≠ [] ∧ c = constantsOf sq raw adj excl := by
  by_cases h : activePlayersOf raw adj excl = []
  · exfalso
    rcases calculateBaseValues_degenerate sq pool h with h1 | h1 <;> rw [h1] at hc <;>
      exact absurd hc (by simp)
  · refine ⟨h, ?_⟩
    rw [calculateBaseValues_main sq pool h] at hc
    exact (ConstantsOut.jfull.injEq _ _ ▸ hc).symm

theorem constants_jempty_players
    (hc : (calculateBaseValues sq raw adj pool excl).constants = ConstantsOut.jempty) :
    (calculateBaseValues sq raw adj pool excl).players = [] := by
  by_cases h : activePlayersOf raw adj excl = []
  · rcases calculateBaseValues_degenerate sq pool h with h1 | h1 <;> rw [h1] at hc ⊢
    exact absurd hc (by simp)
  · rw [calculateBaseValues_main sq pool h] at hc
    exact absurd hc (by simp)

/-! ### Membership facts about the pipeline stages -/

theorem mem_players_main {x : Player}
    (h : activePlayersOf raw adj excl ≠ [])
    (hx : x ∈ (calculateBaseValues sq raw adj pool excl).players) :
    ∃ y ∈ allScoredOf sq raw adj excl,
      x = valuePlayer (positiveSumOf sq raw adj excl) pool
        { y with valOverReplacement := y.rawZ - replacementLevelZOf sq raw adj excl } := by
  rw [calculateBaseValues_main sq pool h] at hx
  simp only [List.mem_map] at hx
  obtain ⟨e, he, rfl⟩ := hx
  unfold evaluatedPlayersOf at he
  simp only [List.mem_map] at he
  obtain ⟨y, hy, rfl⟩ := he
  exact ⟨y, hy, rfl⟩

theorem mem_allScored {y : Player} (hy : y ∈ allScoredOf sq raw adj excl) :
    y ∈ scoredActiveOf sq raw adj excl ∨ y ∈ scoredExcludedOf sq raw adj excl := by
  unfold allScoredOf at hy
  rw [mem_sortByZ] at hy
  exact List.mem_append.mp hy

theorem mem_scoredExcluded_isExcluded {y : Player}
    (hy : y ∈ scoredExcludedOf sq raw adj excl) : y.isExcluded = true := by
  unfold scoredExcludedOf at hy
  simp only [List.mem_map] at hy
  obtain ⟨b, hb, rfl⟩ := hy
  unfold excludedPlayersOf at hb
  have := (List.mem_filter.mp hb).2
  simpa [zscorePlayer, impactPlayer] using this

theorem mem_allPlayers_committed {a : Player} (ha : a ∈ allPlayersOf raw adj excl) :
    a.cERA = a.ERA + adj a.PlayerId Stat.ERA ∧
    a.cWHIP = a.WHIP + adj a.PlayerId Stat.WHIP ∧
    a.cW = a.W + adj a.PlayerId Stat.W ∧
    a.cSV = a.SV + adj a.PlayerId Stat.SV ∧
    a.cSO = a.SO + adj a.PlayerId Stat.SO := by
  unfold allPlayersOf at ha
  simp only [List.mem_map] at ha
  obtain ⟨r, _, rfl⟩ := ha
  simp [augmentPlayer]

theorem mem_scoredActive_fields {y : Player}
    (hy : y ∈ scoredActiveOf sq raw adj excl) :
    y.isExcluded = false ∧
    y.vERA = ((meansOf (activePlayersOf raw adj excl)).ERA - y.cERA) * (y.IP / 9) ∧
    y.vWHIP = ((meansOf (activePlayersOf raw adj excl)).WHIP - y.cWHIP) * y.IP ∧
    y.vW = y.cW ∧ y.vSV = y.cSV ∧ y.vSO = y.cSO ∧
    y.rawZ =
      zTerm (vStdsOf sq (intermediateActiveOf raw adj excl)).vERA
        (vMeansOf (intermediateActiveOf raw adj excl)).vERA y.vERA +
      zTerm (vStdsOf sq (intermediateActiveOf raw adj excl)).vWHIP
        (vMeansOf (intermediateActiveOf raw adj excl)).vWHIP y.vWHIP +
      zTerm (vStdsOf sq (intermediateActiveOf raw adj excl)).vW
        (vMeansOf (intermediateActiveOf raw adj excl)).vW y.vW +
      zTerm (vStdsOf sq (intermediateActiveOf raw adj excl)).vSV
        (vMeansOf (intermediateActiveOf raw adj excl)).vSV y.vSV +
      zTerm (vStdsOf sq (intermediateActiveOf raw adj excl)).vSO
        (vMeansOf (intermediateActiveOf raw adj excl)).vSO y.vSO ∧
    y.cERA = y.ERA + adj y.PlayerId Stat.ERA ∧
    y.cWHIP = y.WHIP + adj y.PlayerId Stat.WHIP ∧
    y.cW = y.W + adj y.PlayerId Stat.W ∧
    y.cSV = y.SV + adj y.PlayerId Stat.SV ∧
    y.cSO = y.SO + adj y.PlayerId Stat.SO := by
  unfold scoredActiveOf at hy
  simp only [List.mem_map] at hy
  obtain ⟨b, hb, rfl⟩ := hy
  unfold intermediateActiveOf at hb
  simp only [List.mem_map] at hb
  obtain ⟨a, ha, rfl⟩ := hb
  have hax : a.isExcluded = false := by
    unfold activePlayersOf at ha
    have := (List.mem_filter.mp ha).2
    simpa using this
  have hall : a ∈ allPlayersOf raw adj excl := (List.mem_filter.mp ha).1
  have hcom := mem_allPlayers_committed hall
  refine ⟨by simpa [zscorePlayer, impactPlayer] using hax, ?_, ?_, ?_, ?_, ?_, ?_, ?_, ?_, ?_, ?_, ?_⟩ <;>
    simp [zscorePlayer, impactPlayer, hcom.1, hcom.2.1, hcom.2.2.1, hcom.2.2.2.1, hcom.2.2.2.2]

theorem mem_players_vor {x : Player}
    (h : activePlayersOf raw adj excl ≠ [])
    (hx : x ∈ (calculateBaseValues sq raw adj pool excl).players) :
    x.valOverReplacement = x.rawZ - replacementLevelZOf sq raw adj excl := by
  obtain ⟨y, _, rfl⟩ := mem_players_main h hx
  simp [valuePlayer]

theorem mem_players_value {x : Player}
    (h : activePlayersOf raw adj excl ≠ [])
    (hx : x ∈ (calculateBaseValues sq raw adj pool excl).players) :
    x.Value = if x.isExcluded = true then 0
      else if 0 < x.valOverReplacement ∧ 0 < positiveSumOf sq raw adj excl then
        x.valOverReplacement / positiveSumOf sq raw adj excl * pool
      else 0 := by
  obtain ⟨y, _, rfl⟩ := mem_players_main h hx
  by_cases hex : y.isExcluded <;>
    by_cases hv : 0 < y.rawZ - replacementLevelZOf sq raw adj excl <;>
    by_cases hS : 0 < positiveSumOf sq raw adj excl <;>
    simp [valuePlayer, hex, hv, hS]

theorem positiveSumOf_nonneg : 0 ≤ positiveSumOf sq raw adj excl := by
  unfold positiveSumOf
  apply List.sum_nonneg
  intro x hx
  simp only [List.mem_map] at hx
  obtain ⟨p, hp, rfl⟩ := hx
  have h2 := (List.mem_filter.mp hp).2
  simp only [Bool.and_eq_true, decide_eq_true_eq] at h2
  exact le_of_lt h2.2

theorem sum_value_filter (l : List Player) (S poolA : ℚ) (hS : 0 < S) :
    (((l.map (valuePlayer S poolA)).filter (fun p => !p.isExcluded)).map
      (fun p => p.Value)).sum =
      ((l.filter (fun p => !p.isExcluded && decide (0 < p.valOverReplacement))).map
        (fun p => p.valOverReplacement)).sum / S * poolA := by
  induction l with
  | nil => simp
  | cons a t ih =>
    simp only [List.map_cons, List.filter_cons]
    by_cases hex : a.isExcluded <;> by_cases hv : 0 < a.valOverReplacement
    · simp [valuePlayer, hex, hv, ih]
    · simp [valuePlayer, hex, hv, ih]
    · simp only [valuePlayer, hex, hv, decide_True, decide_False]
      simp only [Bool.not_false, Bool.true_and, Bool.and_true, if_true, if_false]
      simp only [List.map_cons, List.sum_cons]
      rw [ih, add_div, add_mul]
      simp [hv, hS]
    · simp only [valuePlayer, hex, hv, decide_True, decide_False]
      simp only [Bool.not_false, Bool.true_and, Bool.and_false, if_true, if_false]
      simp only [List.map_cons, List.sum_cons]
      rw [ih]
      simp [hv]

theorem mem_players_active_fields {x : Player}
    (h : activePlayersOf raw adj excl ≠ [])
    (hx : x ∈ (calculateBaseValues sq raw adj pool excl).players)
    (hax : x.isExcluded = false) :
    x.vERA = ((meansOf (activePlayersOf raw adj excl)).ERA - x.cERA) * (x.IP / 9) ∧
    x.vWHIP = ((meansOf (activePlayersOf raw adj excl)).WHIP - x.cWHIP) * x.IP ∧
    x.vW = x.cW ∧ x.vSV = x.cSV ∧ x.vSO = x.cSO ∧
    x.rawZ =
      zTerm (vStdsOf sq (intermediateActiveOf raw adj excl)).vERA
        (vMeansOf (intermediateActiveOf raw adj excl)).vERA x.vERA +
      zTerm (vStdsOf sq (intermediateActiveOf raw adj excl)).vWHIP
        (vMeansOf (intermediateActiveOf raw adj excl)).vWHIP x.vWHIP +
      zTerm (vStdsOf sq (intermediateActiveOf raw adj excl)).vW
        (vMeansOf (intermediateActiveOf raw adj excl)).vW x.vW +
      zTerm (vStdsOf sq (intermediateActiveOf raw adj excl)).vSV
        (vMeansOf (intermediateActiveOf raw adj excl)).vSV x.vSV +
      zTerm (vStdsOf sq (intermediateActiveOf raw adj excl)).vSO
        (vMeansOf (intermediateActiveOf raw adj excl)).vSO x.vSO ∧
    x.cERA = x.ERA + adj x.PlayerId Stat.ERA ∧
    x.cWHIP = x.WHIP + adj x.PlayerId Stat.WHIP ∧
    x.cW = x.W + adj x.PlayerId Stat.W ∧
    x.cSV = x.SV + adj x.PlayerId Stat.SV ∧
    x.cSO = x.SO + adj x.PlayerId Stat.SO := by
  obtain ⟨y, hyAll, rfl⟩ := mem_players_main h hx
  have hyx : y.isExcluded = false := by simpa [valuePlayer] using hax
  rcases mem_allScored hyAll with hy | hy
  · have hf := mem_scoredActive_fields hy
    simpa [valuePlayer] using hf.2
  · exact absurd (mem_scoredExcluded_isExcluded hy) (by simp [hyx])

theorem scoredActive_all_active :
    (scoredActiveOf sq raw adj excl).filter (fun p => !p.isExcluded) =
      scoredActiveOf sq raw adj excl := by
  apply List.filter_eq_self.mpr
  intro y hy
  have := (mem_scoredActive_fields hy).1
  simp [this]

theorem scoredExcluded_none_active :
    (scoredExcludedOf sq raw adj excl).filter (fun p => !p.isExcluded) = [] := by
  apply List.filter_eq_nil_iff.mpr
  intro y hy
  have := mem_scoredExcluded_isExcluded hy
  simp [this]

theorem sortedActiveOnly_perm :
    List.Perm (sortedActiveOnlyOf sq raw adj excl) (scoredActiveOf sq raw adj excl) := by
  unfold sortedActiveOnlyOf allScoredOf
  have h := (sortByZ_perm (scoredActiveOf sq raw adj excl ++
    scoredExcludedOf sq raw adj excl)).filter (fun p => !p.isExcluded)
  rwa [List.filter_append, scoredActive_all_active, scoredExcluded_none_active,
    List.append_nil] at h

theorem sortedActiveOnly_length :
    (sortedActiveOnlyOf sq raw adj excl).length = (activePlayersOf raw adj excl).length := by
  rw [sortedActiveOnly_perm.length_eq]
  unfold scoredActiveOf intermediateActiveOf
  simp [List.length_map]

theorem sortedActiveOnly_ne (h : activePlayersOf raw adj excl ≠ []) :
    sortedActiveOnlyOf sq raw adj excl ≠ [] := by
  intro hnil
  apply h
  have hl := @sortedActiveOnly_length sq raw adj excl
  rw [hnil] at hl
  exact List.length_eq_zero.mp hl.symm

theorem replacementLevelZ_get (h : activePlayersOf raw adj excl ≠ []) :
    (sortedActiveOnlyOf sq raw adj excl).get?
        (min 200 ((sortedActiveOnlyOf sq raw adj excl).length - 1)) =
      some ((sortedActiveOnlyOf sq raw adj excl).get
        ⟨min 200 ((sortedActiveOnlyOf sq raw adj excl).length - 1), by
          have h0 : 0 < (sortedActiveOnlyOf sq raw adj excl).length :=
            List.length_pos.mpr (sortedActiveOnly_ne h)
          omega⟩) := by
  exact List.get?_eq_get _

theorem replacementLevelZOf_eq (h : activePlayersOf raw adj excl ≠ []) :
    replacementLevelZOf sq raw adj excl =
      ((sortedActiveOnlyOf sq raw adj excl).get
        ⟨min 200 ((sortedActiveOnlyOf sq raw adj excl).length - 1), by
          have h0 : 0 < (sortedActiveOnlyOf sq raw adj excl).length :=
            List.length_pos.mpr (sortedActiveOnly_ne h)
          omega⟩).rawZ := by
  unfold replacementLevelZOf
  rw [replacementLevelZ_get h]

theorem players_filter_active (h : activePlayersOf raw adj excl ≠ []) :
    (calculateBaseValues sq raw adj pool excl).players.filter (fun p => !p.isExcluded) =
      (sortedActiveOnlyOf sq raw adj excl).map (fun y =>
        valuePlayer (positiveSumOf sq raw adj excl) pool
          { y with valOverReplacement := y.rawZ - replacementLevelZOf sq raw adj excl }) := by
  have hp : (calculateBaseValues sq raw adj pool excl).players =
      (evaluatedPlayersOf sq raw adj excl).map
        (valuePlayer (positiveSumOf sq raw adj excl) pool) := by
    rw [calculateBaseValues_main sq pool h]
  rw [hp]
  unfold evaluatedPlayersOf sortedActiveOnlyOf
  rw [List.map_map, List.filter_map]
  rfl

theorem players_positive_filter (h : activePlayersOf raw adj excl ≠ []) :
    (((calculateBaseValues sq raw adj pool excl).players.filter
        (fun p => !p.isExcluded && decide (0 < p.valOverReplacement))).map
      (fun p => p.valOverReplacement)).sum = positiveSumOf sq raw adj excl := by
  have hp : (calculateBaseValues sq raw adj pool excl).players =
      (evaluatedPlayersOf sq raw adj excl).map
        (valuePlayer (positiveSumOf sq raw adj excl) pool) := by
    rw [calculateBaseValues_main sq pool h]
  rw [hp, List.filter_map, List.map_map]
  rfl

theorem sum_value_evaluated (pool : ℚ) (hS : 0 < positiveSumOf sq raw adj excl) :
    ((((evaluatedPlayersOf sq raw adj excl).map
        (valuePlayer (positiveSumOf sq raw adj excl) pool)).filter
      (fun p => !p.isExcluded)).map (fun p => p.Value)).sum = pool := by
  rw [sum_value_filter (evaluatedPlayersOf sq raw adj excl)
    (positiveSumOf sq raw adj excl) pool hS]
  rw [show (((evaluatedPlayersOf sq raw adj excl).filter
      (fun p => !p.isExcluded && decide (0 < p.valOverReplacement))).map
    (fun p => p.valOverReplacement)).sum = positiveSumOf sq raw adj excl from rfl]
  rw [div_self (ne_of_gt hS), one_mul]

/-- C1: for every full recompute whose returned constants are a full
snapshot with positiveSum > 0, the monetary values over the active
(non-excluded) returned entities sum to the pool amount exactly;
moreover every active entity with strictly positive value above
replacement receives its proportional share
valOverReplacement / positiveSum x poolAmount, and every other entity
(excluded, or at or below replacement) receives 0. -/
theorem calculateBaseValues_pool_conservation (sq : ℚ → ℚ) (raw : List RawPlayer)
    (adj : String → Stat → ℚ) (pool : ℚ) (excl : String → Bool) (c : ValConstants)
    (hc : (calculateBaseValues sq raw adj pool excl).constants = ConstantsOut.jfull c)
    (hpos : 0 < c.positiveSum) :
    ((((calculateBaseValues sq raw adj pool excl).players.filter
        (fun p => !p.isExcluded)).map (fun p => p.Value)).sum = pool) ∧
    ∀ p ∈ (calculateBaseValues sq raw adj pool excl).players,
      (p.isExcluded = false → 0 < p.valOverReplacement →
        p.Value = p.valOverReplacement / c.positiveSum * pool) ∧
      ((p.isExcluded = true ∨ ¬ 0 < p.valOverReplacement) → p.Value = 0) := by
  obtain ⟨hne, hceq⟩ := constants_jfull_inv hc
  have hSpos : 0 < positiveSumOf sq raw adj excl := by
    rw [hceq] at hpos
    simpa [constantsOf] using hpos
  have hcS : c.positiveSum = positiveSumOf sq raw adj excl := by
    rw [hceq]
    rfl
  constructor
  · have hp : (calculateBaseValues sq raw adj pool excl).players =
        (evaluatedPlayersOf sq raw adj excl).map
          (valuePlayer (positiveSumOf sq raw adj excl) pool) := by
      rw [calculateBaseValues_main sq pool hne]
    rw [hp]
    exact sum_value_evaluated pool hSpos
  · intro p hp
    have hval := mem_players_value hne hp
    constructor
    · intro hex hv
      rw [hval, hcS]
      simp [hex, hv, hSpos]
    · intro hor
      rw [hval]
      rcases hor with hex | hnv
      · simp [hex]
      · by_cases hex : p.isExcluded <;> simp [hex, hnv]

theorem players_replacement_get (pool : ℚ) (h : activePlayersOf raw adj excl ≠ []) :
    (((calculateBaseValues sq raw adj pool excl).players.filter
        (fun p => !p.isExcluded)).map (fun p => p.rawZ)).get?
      (min 200 (((calculateBaseValues sq raw adj pool excl).players.filter
        (fun p => !p.isExcluded)).length - 1)) =
      some (replacementLevelZOf sq raw adj excl) := by
  rw [players_filter_active h, List.map_map, List.length_map, List.get?_map,
    replacementLevelZ_get h, replacementLevelZOf_eq h]
  rfl

/-- C3: an excluded entity always receives monetary value exactly 0 from
the full recompute, in every branch, regardless of its computed score;
with a full constants snapshot the positive sum ranges over the active
output entities only (so excluded entities contribute nothing to it)
and the replacement score is read at index min(200, activeCount - 1) of
the sorted active subset of the output; and the projector returns value
0 for every excluded entity whenever its constants argument is not null
(the null case returns the input list unchanged). -/
theorem calculateBaseValues_exclusion_semantics (sq : ℚ → ℚ) (raw : List RawPlayer)
    (adj : String → Stat → ℚ) (pool : ℚ) (excl : String → Bool) :
    (∀ p ∈ (calculateBaseValues sq raw adj pool excl).players,
      p.isExcluded = true → p.Value = 0) ∧
    (∀ c : ValConstants,
      (calculateBaseValues sq raw adj pool excl).constants = ConstantsOut.jfull c →
      c.positiveSum =
        ((((calculateBaseValues sq raw adj pool excl).players.filter
            (fun p => !p.isExcluded && decide (0 < p.valOverReplacement))).map
          (fun p => p.valOverReplacement)).sum) ∧
      (((calculateBaseValues sq raw adj pool excl).players.filter
          (fun p => !p.isExcluded)).map (fun p => p.rawZ)).get?
        (min 200 (((calculateBaseValues sq raw adj pool excl).players.filter
          (fun p => !p.isExcluded)).length - 1)) = some c.replacementLevelZ) ∧
    (∀ (bs : List Player) (pend : String → Stat → Option ℚ)
      (comm : String → Stat → ℚ) (cst : ConstantsOut) (poolA : ℚ),
      cst ≠ ConstantsOut.jnull →
      ∀ q ∈ applyDisplayAdjustments bs pend comm cst poolA,
        q.isExcluded = true → q.Value = 0) := by
  refine ⟨?_, ?_, ?_⟩
  · intro p hp hex
    by_cases h : activePlayersOf raw adj excl = []
    · rcases calculateBaseValues_degenerate sq pool h with h1 | h1 <;> rw [h1] at hp
      · exact absurd hp (by simp)
      · simp only [List.mem_map] at hp
        obtain ⟨a, _, rfl⟩ := hp
        rfl
    · rw [mem_players_value h hp]
      simp [hex]
  · intro c hc
    obtain ⟨hne, hceq⟩ := constants_jfull_inv hc
    constructor
    · rw [players_positive_filter hne, hceq]
      rfl
    · rw [players_replacement_get pool hne, hceq]
      rfl
  · intro bs pend comm cst poolA hcst q hq hex
    cases cst with
    | jnull => exact absurd rfl hcst
    | jempty =>
      simp only [applyDisplayAdjustments, List.mem_map] at hq
      obtain ⟨p, _, rfl⟩ := hq
      by_cases hpe : p.isExcluded
      · simp [projectPlayer, hpe]
      · rw [show (projectPlayer pend comm none poolA p).isExcluded = p.isExcluded from by
          simp [projectPlayer, hpe]] at hex
        exact absurd hex (by simp [hpe])
    | jfull cfull =>
      simp only [applyDisplayAdjustments, List.mem_map] at hq
      obtain ⟨p, _, rfl⟩ := hq
      by_cases hpe : p.isExcluded
      · simp [projectPlayer, hpe]
      · rw [show (projectPlayer pend comm (some cfull) poolA p).isExcluded = p.isExcluded from by
          simp [projectPlayer, hpe]] at hex
        exact absurd hex (by simp [hpe])

/-- C4: whenever the full recompute returns a full constants snapshot,
the active output subset is non-empty, the replacement score stored in
the snapshot equals the composite score found at zero-based index
min(200, activeCount - 1) of the descending-sorted active subset (index
200 with 300 or more active entities, the last active entity otherwise),
and every returned entity, active or excluded, carries
valOverReplacement = rawZ - replacementScore. -/
theorem calculateBaseValues_replacement_cutoff (sq : ℚ → ℚ) (raw : List RawPlayer)
    (adj : String → Stat → ℚ) (pool : ℚ) (excl : String → Bool) (c : ValConstants)
    (hc : (calculateBaseValues sq raw adj pool excl).constants = ConstantsOut.jfull c) :
    ((calculateBaseValues sq raw adj pool excl).players.filter
        (fun p => !p.isExcluded)) ≠ [] ∧
    (((calculateBaseValues sq raw adj pool excl).players.filter
        (fun p => !p.isExcluded)).map (fun p => p.rawZ)).get?
      (min 200 (((calculateBaseValues sq raw adj pool excl).players.filter
        (fun p => !p.isExcluded)).length - 1)) = some c.replacementLevelZ ∧
    ∀ p ∈ (calculateBaseValues sq raw adj pool excl).players,
      p.valOverReplacement = p.rawZ - c.replacementLevelZ := by
  obtain ⟨hne, hceq⟩ := constants_jfull_inv hc
  refine ⟨?_, ?_, ?_⟩
  · rw [players_filter_active hne]
    intro hnil
    exact sortedActiveOnly_ne hne (by simpa using List.map_eq_nil_iff.mp hnil)
  · rw [players_replacement_get pool hne, hceq]
    rfl
  · intro p hp
    rw [mem_players_vor hne hp, hceq]
    rfl

theorem projectPlayer_frame (pend : String → Stat → Option ℚ)
    (comm : String → Stat → ℚ) (cOpt : Option ValConstants) (poolA : ℚ) (p : Player) :
    (fun q => (q.Name, q.PlayerId, q.IP, q.isExcluded, q.rawZ, q.valOverReplacement,
        q.cERA, q.cWHIP, q.cW, q.cSV, q.cSO, q.vERA, q.vWHIP, q.vW, q.vSV, q.vSO))
      (projectPlayer pend comm cOpt poolA p) =
    (fun q => (q.Name, q.PlayerId, q.IP, q.isExcluded, q.rawZ, q.valOverReplacement,
        q.cERA, q.cWHIP, q.cW, q.cSV, q.cSO, q.vERA, q.vWHIP, q.vW, q.vSV, q.vSO)) p := by
  by_cases hpe : p.isExcluded <;> simp [projectPlayer, hpe]

/-- C10: the projector writes only the five displayed stat fields, the
monetary value and the five per-stat status fields; every other stored
field of every entity, in particular name, id, workload, exclusion
flag, the stored composite score, the stored value above replacement,
the committed stats and the impact values, is returned unchanged, at
the same position, for every shape of the constants argument. -/
theorem applyDisplayAdjustments_frame (bs : List Player)
    (pend : String → Stat → Option ℚ) (comm : String → Stat → ℚ)
    (cst : ConstantsOut) (poolA : ℚ) :
    (applyDisplayAdjustments bs pend comm cst poolA).length = bs.length ∧
    ∀ i : ℕ,
      ((applyDisplayAdjustments bs pend comm cst poolA).get? i).map
        (fun q => (q.Name, q.PlayerId, q.IP, q.isExcluded, q.rawZ, q.valOverReplacement,
          q.cERA, q.cWHIP, q.cW, q.cSV, q.cSO, q.vERA, q.vWHIP, q.vW, q.vSV, q.vSO)) =
      (bs.get? i).map
        (fun q => (q.Name, q.PlayerId, q.IP, q.isExcluded, q.rawZ, q.valOverReplacement,
          q.cERA, q.cWHIP, q.cW, q.cSV, q.cSO, q.vERA, q.vWHIP, q.vW, q.vSV, q.vSO)) := by
  cases cst with
  | jnull => exact ⟨rfl, fun i => rfl⟩
  | jempty =>
    refine ⟨List.length_map bs _, fun i => ?_⟩
    show ((bs.map (projectPlayer pend comm none poolA)).get? i).map _ = _
    rw [List.get?_map, Option.map_map]
    cases hb : bs.get? i with
    | none => rfl
    | some p =>
      exact congrArg some (projectPlayer_frame pend comm none poolA p)
  | jfull cfull =>
    refine ⟨List.length_map bs _, fun i => ?_⟩
    show ((bs.map (projectPlayer pend comm (some cfull) poolA)).get? i).map _ = _
    rw [List.get?_map, Option.map_map]
    cases hb : bs.get? i with
    | none => rfl
    | some p =>
      exact congrArg some (projectPlayer_frame pend comm (some cfull) poolA p)

/-- C9: a z-score term whose standard deviation is 0 is exactly 0 (the
division sits under the std guard, so no unguarded division happens on
the score path); consequently a zero-variance metric contributes
nothing to any composite score: the score of the full recompute
(zscorePlayer) and the score recomputed by the projector (projZSum) are
both independent of the corresponding impact value. -/
theorem zero_variance_zterm :
    (∀ m v : ℚ, zTerm 0 m v = 0) ∧
    (∀ (iM iS : VMeans) (p : Player) (x : ℚ),
      (iS.vERA = 0 →
        (zscorePlayer iM iS { p with vERA := x }).rawZ = (zscorePlayer iM iS p).rawZ) ∧
      (iS.vWHIP = 0 →
        (zscorePlayer iM iS { p with vWHIP := x }).rawZ = (zscorePlayer iM iS p).rawZ) ∧
      (iS.vW = 0 →
        (zscorePlayer iM iS { p with vW := x }).rawZ = (zscorePlayer iM iS p).rawZ) ∧
      (iS.vSV = 0 →
        (zscorePlayer iM iS { p with vSV := x }).rawZ = (zscorePlayer iM iS p).rawZ) ∧
      (iS.vSO = 0 →
        (zscorePlayer iM iS { p with vSO := x }).rawZ = (zscorePlayer iM iS p).rawZ)) ∧
    (∀ (c : ValConstants) (e1 e2 wh w sv so ip : ℚ), c.valStds.vERA = 0 →
      projZSum c e1 wh w sv so ip = projZSum c e2 wh w sv so ip) ∧
    (∀ (c : ValConstants) (e wh1 wh2 w sv so ip : ℚ), c.valStds.vWHIP = 0 →
      projZSum c e wh1 w sv so ip = projZSum c e wh2 w sv so ip) ∧
    (∀ (c : ValConstants) (e wh w1 w2 sv so ip : ℚ), c.valStds.vW = 0 →
      projZSum c e wh w1 sv so ip = projZSum c e wh w2 sv so ip) ∧
    (∀ (c : ValConstants) (e wh w sv1 sv2 so ip : ℚ), c.valStds.vSV = 0 →
      projZSum c e wh w sv1 so ip = projZSum c e wh w sv2 so ip) ∧
    (∀ (c : ValConstants) (e wh w sv so1 so2 ip : ℚ), c.valStds.vSO = 0 →
      projZSum c e wh w sv so1 ip = projZSum c e wh w sv so2 ip) := by
  refine ⟨fun m v => by simp [zTerm], fun iM iS p x => ?_, ?_, ?_, ?_, ?_, ?_⟩
  · refine ⟨fun h => ?_, fun h => ?_, fun h => ?_, fun h => ?_, fun h => ?_⟩ <;>
      simp [zscorePlayer, zTerm, h]
  all_goals
    intro c q1 q2 q3 q4 q5 q6 q7 hstd
    simp [projZSum, zTerm, hstd]

theorem project_value_of_active_member {x : Player}
    (hne : activePlayersOf raw adj excl ≠ [])
    (hx : x ∈ (calculateBaseValues sq raw adj pool excl).players)
    (hex : x.isExcluded = false) :
    (projectPlayer noPending adj (some (constantsOf sq raw adj excl)) pool x).Value =
      x.Value := by
  obtain ⟨hvERA, hvWHIP, hvW, hvSV, hvSO, hrawZ, hcERA, hcWHIP, hcW, hcSV, hcSO⟩ :=
    mem_players_active_fields hne hx hex
  have hvor := mem_players_vor hne hx
  have hval := mem_players_value hne hx
  have hz : projZSum (constantsOf sq raw adj excl) (x.ERA + adj x.PlayerId Stat.ERA)
      (x.WHIP + adj x.PlayerId Stat.WHIP) (x.W + adj x.PlayerId Stat.W)
      (x.SV + adj x.PlayerId Stat.SV) (x.SO + adj x.PlayerId Stat.SO) x.IP = x.rawZ := by
    rw [← hcERA, ← hcWHIP, ← hcW, ← hcSV, ← hcSO, hrawZ]
    simp only [projZSum, constantsOf]
    rw [← hvERA, ← hvWHIP, ← hvW, ← hvSV, ← hvSO]
  simp only [projectPlayer, hex, Bool.false_eq_true, if_false, processStat, noPending,
    Option.isSome_none, Option.getD_none, if_neg, ite_false]
  rw [hz]
  have hrep : (constantsOf sq raw adj excl).replacementLevelZ =
      replacementLevelZOf sq raw adj excl := rfl
  have hps : (constantsOf sq raw adj excl).positiveSum = positiveSumOf sq raw adj excl := rfl
  have hvor2 : x.rawZ - replacementLevelZOf sq raw adj excl = x.valOverReplacement := hvor.symm
  rw [hrep, hps, hvor2]
  by_cases hS0 : positiveSumOf sq raw adj excl = 0
  · simp [hS0]
  · have hSpos : 0 < positiveSumOf sq raw adj excl :=
      lt_of_le_of_ne positiveSumOf_nonneg (Ne.symm hS0)
    by_cases hvp : 0 < x.valOverReplacement
    · rw [hval]
      simp [hex, hvp, hSpos, hS0]
    · rw [hval]
      simp [hex, hvp, hS0]

/-- C2 (amended): projecting the output of a full recompute with an
empty pending map, the same committed map that produced the base
values, the returned constants and the same pool amount reproduces
every entity's monetary value exactly, whenever those constants are
not null. -/
theorem applyDisplayAdjustments_no_edits_same_committed (sq : ℚ → ℚ)
    (raw : List RawPlayer) (adj : String → Stat → ℚ) (pool : ℚ) (excl : String → Bool)
    (hc : (calculateBaseValues sq raw adj pool excl).constants ≠ ConstantsOut.jnull) :
    (applyDisplayAdjustments (calculateBaseValues sq raw adj pool excl).players
        noPending adj (calculateBaseValues sq raw adj pool excl).constants pool).map
      (fun p => p.Value) =
    (calculateBaseValues sq raw adj pool excl).players.map (fun p => p.Value) := by
  rcases hcase : (calculateBaseValues sq raw adj pool excl).constants with _ | _ | c
  · exact absurd hcase hc
  · rw [constants_jempty_players hcase]
    rfl
  · obtain ⟨hne, hceq⟩ := constants_jfull_inv hcase
    show ((calculateBaseValues sq raw adj pool excl).players.map
      (projectPlayer noPending adj (some c) pool)).map (fun p => p.Value) = _
    rw [List.map_map]
    apply List.map_congr_left
    intro x hx
    subst hceq
    by_cases hex : x.isExcluded
    · have hv := mem_players_value hne hx
      have h1 : (projectPlayer noPending adj
          (some (constantsOf sq raw adj excl)) pool x).Value = 0 := by
        simp [projectPlayer, hex]
      have h2 : x.Value = 0 := by
        rw [hv]
        simp [hex]
      show (projectPlayer noPending adj (some (constantsOf sq raw adj excl)) pool x).Value =
        x.Value
      rw [h1, h2]
    · exact project_value_of_active_member hne hx (by simpa using hex)

theorem zTerm_mono {std m a b : ℚ} (hstd : 0 ≤ std) (hab : a ≤ b) :
    zTerm std m a ≤ zTerm std m b := by
  unfold zTerm
  split
  · next h =>
    have hpos : 0 < std := lt_of_le_of_ne hstd (Ne.symm h)
    exact (div_le_div_right hpos).mpr (sub_le_sub_right hab m)
  · exact le_refl 0

/-- C5 (amended): inside one full recompute, of two active entities
with identical committed stats whose committed rate stats are at or
better than the active-population means, the entity with the larger
workload receives at least as much monetary value, for any nonnegative
pool amount and any nonnegative square-root stand-in. -/
theorem workload_monotonicity_above_mean (sq : ℚ → ℚ) (raw : List RawPlayer)
    (adj : String → Stat → ℚ) (pool : ℚ) (excl : String → Bool) (c : ValConstants)
    (p q : Player)
    (hsq : ∀ x : ℚ, 0 ≤ sq x) (hpool : 0 ≤ pool)
    (hc : (calculateBaseValues sq raw adj pool excl).constants = ConstantsOut.jfull c)
    (hp : p ∈ (calculateBaseValues sq raw adj pool excl).players)
    (hq : q ∈ (calculateBaseValues sq raw adj pool excl).players)
    (hpe : p.isExcluded = false) (hqe : q.isExcluded = false)
    (hERA : p.cERA = q.cERA) (hWHIP : p.cWHIP = q.cWHIP) (hW : p.cW = q.cW)
    (hSV : p.cSV = q.cSV) (hSO : p.cSO = q.cSO)
    (hip : q.IP ≤ p.IP)
    (hgoodERA : p.cERA ≤ c.rateMeansERA) (hgoodWHIP : p.cWHIP ≤ c.rateMeansWHIP) :
    q.Value ≤ p.Value := by
  obtain ⟨hne, hceq⟩ := constants_jfull_inv hc
  subst hceq
  obtain ⟨hpERA, hpWHIP, hpW, hpSV, hpSO, hpZ, _, _, _, _, _⟩ :=
    mem_players_active_fields hne hp hpe
  obtain ⟨hqERA, hqWHIP, hqW, hqSV, hqSO, hqZ, _, _, _, _, _⟩ :=
    mem_players_active_fields hne hq hqe
  have hgE : q.vERA ≤ p.vERA := by
    rw [hpERA, hqERA, ← hERA]
    apply mul_le_mul_of_nonneg_left
    · exact (div_le_div_right (by norm_num)).mpr hip
    · have : p.cERA ≤ (meansOf (activePlayersOf raw adj excl)).ERA := hgoodERA
      linarith
  have hgW : q.vWHIP ≤ p.vWHIP := by
    rw [hpWHIP, hqWHIP, ← hWHIP]
    apply mul_le_mul_of_nonneg_left hip
    have : p.cWHIP ≤ (meansOf (activePlayersOf raw adj excl)).WHIP := hgoodWHIP
    linarith
  have hsE : 0 ≤ (vStdsOf sq (intermediateActiveOf raw adj excl)).vERA := hsq _
  have hsW : 0 ≤ (vStdsOf sq (intermediateActiveOf raw adj excl)).vWHIP := hsq _
  have hz : q.rawZ ≤ p.rawZ := by
    rw [hpZ, hqZ]
    have t1 := @zTerm_mono _ ((vMeansOf (intermediateActiveOf raw adj excl)).vERA) _ _ hsE hgE
    have t2 := @zTerm_mono _ ((vMeansOf (intermediateActiveOf raw adj excl)).vWHIP) _ _ hsW hgW
    have t3 : q.vW = p.vW := by rw [hpW, hqW, hW]
    have t4 : q.vSV = p.vSV := by rw [hpSV, hqSV, hSV]
    have t5 : q.vSO = p.vSO := by rw [hpSO, hqSO, hSO]
    rw [t3, t4, t5]
    linarith
  have hvor : q.valOverReplacement ≤ p.valOverReplacement := by
    rw [mem_players_vor hne hp, mem_players_vor hne hq]
    linarith
  have hvalp := mem_players_value hne hp
  have hvalq := mem_players_value hne hq
  by_cases hS : 0 < positiveSumOf sq raw adj excl
  · by_cases hqv : 0 < q.valOverReplacement
    · have hpv : 0 < p.valOverReplacement := lt_of_lt_of_le hqv hvor
      rw [hvalp, hvalq]
      simp only [hpe, hqe, hpv, hqv, hS, and_true, if_true, if_pos, true_and]
      simp only [Bool.false_eq_true, if_false, if_pos (And.intro hpv hS),
        if_pos (And.intro hqv hS)]
      apply mul_le_mul_of_nonneg_right _ hpool
      exact (div_le_div_right hS).mpr hvor
    · have hq0 : q.Value = 0 := by
        rw [hvalq]
        simp [hqe, hqv]
      rw [hq0, hvalp]
      by_cases hpv : 0 < p.valOverReplacement
      · simp only [hpe, Bool.false_eq_true, if_false, if_pos (And.intro hpv hS)]
        apply mul_nonneg _ hpool
        exact div_nonneg (le_of_lt hpv) (le_of_lt hS)
      · simp [hpe, hpv]
  · rw [hvalp, hvalq]
    simp [hpe, hqe, hS]

/-- C6 (amended): with a full constants snapshot the returned entity
list is sorted in descending order of composite score and ties are
resolved stably with respect to the internal concatenation that lists
the scored active entities (in input order) before the scored excluded
entities (in input order): for every score value, the entities carrying
that score appear in the output in exactly the order of that
concatenation.  Equal-score entities of the same partition therefore
retain their input order, but an active entity precedes an excluded
entity of equal score regardless of input order. -/
theorem sort_descending_stable_within_partitions (sq : ℚ → ℚ) (raw : List RawPlayer)
    (adj : String → Stat → ℚ) (pool : ℚ) (excl : String → Bool) (c : ValConstants)
    (hc : (calculateBaseValues sq raw adj pool excl).constants = ConstantsOut.jfull c) :
    ((calculateBaseValues sq raw adj pool excl).players).Pairwise
      (fun a b => b.rawZ ≤ a.rawZ) ∧
    ∀ z : ℚ,
      (((calculateBaseValues sq raw adj pool excl).players.filter
          (fun p => decide (p.rawZ = z))).map (fun p => p.PlayerId)) =
      (((scoredActiveOf sq raw adj excl ++ scoredExcludedOf sq raw adj excl).filter
          (fun p => decide (p.rawZ = z))).map (fun p => p.PlayerId)) := by
  obtain ⟨hne, _⟩ := constants_jfull_inv hc
  have hp : (calculateBaseValues sq raw adj pool excl).players =
      (evaluatedPlayersOf sq raw adj excl).map
        (valuePlayer (positiveSumOf sq raw adj excl) pool) := by
    rw [calculateBaseValues_main sq pool hne]
  constructor
  · rw [hp]
    unfold evaluatedPlayersOf allScoredOf
    rw [List.map_map]
    have h0 := sortByZ_sorted (scoredActiveOf sq raw adj excl ++
      scoredExcludedOf sq raw adj excl)
    refine List.Pairwise.map _ ?_ h0
    intro a b hab
    exact hab
  · intro z
    rw [hp]
    unfold evaluatedPlayersOf allScoredOf
    rw [List.map_map, List.filter_map, List.map_map]
    exact congrArg (List.map (fun p => p.PlayerId))
      (sortByZ_filter_class (scoredActiveOf sq raw adj excl ++
        scoredExcludedOf sq raw adj excl) z)

/-- C7 (amended): an empty input list, or one whose every record lacks
an id or a name, yields an empty entity list together with the empty
(fieldless) constants object — not the null constants of the
no-active-entities branch. -/
theorem empty_input_returns_empty (sq : ℚ → ℚ) (raw : List RawPlayer)
    (adj : String → Stat → ℚ) (pool : ℚ) (excl : String → Bool)
    (h : raw.filter validRaw = []) :
    calculateBaseValues sq raw adj pool excl =
      { players := [], constants := ConstantsOut.jempty } := by
  have hall : allPlayersOf raw adj excl = [] := by
    unfold allPlayersOf
    rw [h]
    rfl
  unfold calculateBaseValues
  split
  · rfl
  · split
    · rfl
    · next h3 => exact absurd (by rw [hall]; rfl) h3

/-- Delta resolution rule as the specification words it: the pending
delta when the pending key exists, else the committed delta (the
committed map is already read with default 0). -/
def resolvedDelta (pendingAdjustments : String → Stat → Option ℚ)
    (committedAdjustments : String → Stat → ℚ) (pid : String) (s : Stat) : ℚ :=
  match pendingAdjustments pid s with
  | some d => d
  | none => committedAdjustments pid s

/-- Edit status rule as the specification words it: pending when a
pending key exists (even with a zero delta), else changed when the
resolved delta is non-zero, else default. -/
def resolvedStatus (pendingAdjustments : String → Stat → Option ℚ)
    (committedAdjustments : String → Stat → ℚ) (pid : String) (s : Stat) : String :=
  if (pendingAdjustments pid s).isSome then "pending"
  else if resolvedDelta pendingAdjustments committedAdjustments pid s ≠ 0 then "changed"
  else "default"

/-- C8 (amended): the projector maps its per-entity body over the input
list, and for every non-excluded entity that body adds to each of the
five raw stats exactly the resolved delta — the pending delta if a
pending key exists (even a zero one), else the committed delta, else 0
— and sets the per-stat status to pending / changed / default by the
resolution rule.  (Excluded entities short-circuit with stats and
statuses unchanged and value 0.) -/
theorem delta_resolution_active (pend : String → Stat → Option ℚ)
    (comm : String → Stat → ℚ) (c : ValConstants) (poolA : ℚ) (p : Player)
    (hact : p.isExcluded = false) :
    (∀ bs : List Player,
      applyDisplayAdjustments bs pend comm (ConstantsOut.jfull c) poolA =
        bs.map (projectPlayer pend comm (some c) poolA)) ∧
    (projectPlayer pend comm (some c) poolA p).ERA =
      p.ERA + resolvedDelta pend comm p.PlayerId Stat.ERA ∧
    (projectPlayer pend comm (some c) poolA p).WHIP =
      p.WHIP + resolvedDelta pend comm p.PlayerId Stat.WHIP ∧
    (projectPlayer pend comm (some c) poolA p).W =
      p.W + resolvedDelta pend comm p.PlayerId Stat.W ∧
    (projectPlayer pend comm (some c) poolA p).SV =
      p.SV + resolvedDelta pend comm p.PlayerId Stat.SV ∧
    (projectPlayer pend comm (some c) poolA p).SO =
      p.SO + resolvedDelta pend comm p.PlayerId Stat.SO ∧
    (projectPlayer pend comm (some c) poolA p).statusERA =
      some (resolvedStatus pend comm p.PlayerId Stat.ERA) ∧
    (projectPlayer pend comm (some c) poolA p).statusWHIP =
      some (resolvedStatus pend comm p.PlayerId Stat.WHIP) ∧
    (projectPlayer pend comm (some c) poolA p).statusW =
      some (resolvedStatus pend comm p.PlayerId Stat.W) ∧
    (projectPlayer pend comm (some c) poolA p).statusSV =
      some (resolvedStatus pend comm p.PlayerId Stat.SV) ∧
    (projectPlayer pend comm (some c) poolA p).statusSO =
      some (resolvedStatus pend comm p.PlayerId Stat.SO) := by
  refine ⟨fun bs => rfl, ?_, ?_, ?_, ?_, ?_, ?_, ?_, ?_, ?_, ?_⟩ <;>
    [cases hpd : pend p.PlayerId Stat.ERA;
     cases hpd : pend p.PlayerId Stat.WHIP;
     cases hpd : pend p.PlayerId Stat.W;
     cases hpd : pend p.PlayerId Stat.SV;
     cases hpd : pend p.PlayerId Stat.SO;
     cases hpd : pend p.PlayerId Stat.ERA;
     cases hpd : pend p.PlayerId Stat.WHIP;
     cases hpd : pend p.PlayerId Stat.W;
     cases hpd : pend p.PlayerId Stat.SV;
     cases hpd : pend p.PlayerId Stat.SO] <;>
    simp [projectPlayer, processStat, resolvedDelta, resolvedStatus, hact, hpd]

/-! ### Concrete runs

The demonstration inputs below instantiate the square-root parameter
with jsSqrt.  Every fact proved about them is invariant under the
choice of the stand-in on positive arguments: all z-scores of a run
scale uniformly by the reciprocal of each standard deviation and the
monetary values are ratios of such scores, so the exact value returned
by the stand-in cancels. -/

/-- Demonstration input: three valid entities, two of them identical
except for workload (90 vs 9 innings) with rate stats better than the
population means, one worse entity setting the means. -/
def rawGood : List RawPlayer :=
  [ { Name := "A", PlayerId := "1", ERA := 2, WHIP := 1, W := 0, SV := 0, SO := 0, IP := some 90 },
    { Name := "B", PlayerId := "2", ERA := 2, WHIP := 1, W := 0, SV := 0, SO := 0, IP := some 9 },
    { Name := "C", PlayerId := "3", ERA := 8, WHIP := 1, W := 0, SV := 0, SO := 0, IP := some 9 } ]

def pGoodA : Player :=
  { Name := "A", PlayerId := "1", ERA := 2, WHIP := 1, W := 0, SV := 0, SO := 0, IP := 90,
    isExcluded := false, cERA := 2, cWHIP := 1, cW := 0, cSV := 0, cSO := 0,
    vERA := 20, vWHIP := 0, vW := 0, vSV := 0, vSO := 0,
    rawZ := 7/52, valOverReplacement := 3/13, Value := 1200 }

def pGoodB : Player :=
  { Name := "B", PlayerId := "2", ERA := 2, WHIP := 1, W := 0, SV := 0, SO := 0, IP := 9,
    isExcluded := false, cERA := 2, cWHIP := 1, cW := 0, cSV := 0, cSO := 0,
    vERA := 2, vWHIP := 0, vW := 0, vSV := 0, vSO := 0,
    rawZ := -1/26, valOverReplacement := 3/52, Value := 300 }

def pGoodC : Player :=
  { Name := "C", PlayerId := "3", ERA := 8, WHIP := 1, W := 0, SV := 0, SO := 0, IP := 9,
    isExcluded := false, cERA := 8, cWHIP := 1, cW := 0, cSV := 0, cSO := 0,
    vERA := -4, vWHIP := 0, vW := 0, vSV := 0, vSO := 0,
    rawZ := -5/52, valOverReplacement := 0, Value := 0 }

def cGood : ValConstants :=
  { rateMeansERA := 4, rateMeansWHIP := 1,
    valMeans := { vERA := 6, vWHIP := 0, vW := 0, vSV := 0, vSO := 0 },
    valStds := { vERA := 104, vWHIP := 0, vW := 0, vSV := 0, vSO := 0 },
    replacementLevelZ := -5/52, positiveSum := 15/52 }

set_option maxHeartbeats 2000000 in
theorem rawGood_result :
    calculateBaseValues jsSqrt rawGood zeroAdj 1500 noExcl =
      { players := [pGoodA, pGoodB, pGoodC], constants := ConstantsOut.jfull cGood } := by
  have hact : activePlayersOf rawGood zeroAdj noExcl =
      [ { Name := "A", PlayerId := "1", ERA := 2, WHIP := 1, W := 0, SV := 0, SO := 0, IP := 90,
          isExcluded := false, cERA := 2, cWHIP := 1, cW := 0, cSV := 0, cSO := 0 },
        { Name := "B", PlayerId := "2", ERA := 2, WHIP := 1, W := 0, SV := 0, SO := 0, IP := 9,
          isExcluded := false, cERA := 2, cWHIP := 1, cW := 0, cSV := 0, cSO := 0 },
        { Name := "C", PlayerId := "3", ERA := 8, WHIP := 1, W := 0, SV := 0, SO := 0, IP := 9,
          isExcluded := false, cERA := 8, cWHIP := 1, cW := 0, cSV := 0, cSO := 0 } ] := by
    simp [activePlayersOf, allPlayersOf, augmentPlayer, validRaw, zeroAdj, noExcl, rawGood]
  have hexc : excludedPlayersOf rawGood zeroAdj noExcl = [] := by
    simp [excludedPlayersOf, allPlayersOf, augmentPlayer, validRaw, zeroAdj, noExcl, rawGood]
  have hne : activePlayersOf rawGood zeroAdj noExcl ≠ [] := by
    rw [hact]
    simp
  have hmeans : meansOf (activePlayersOf rawGood zeroAdj noExcl) =
      { ERA := 4, WHIP := 1, W := 0, SV := 0, SO := 0 } := by
    rw [hact]
    norm_num [meansOf, meanQ]
  have hinter : intermediateActiveOf rawGood zeroAdj noExcl =
      [ { Name := "A", PlayerId := "1", ERA := 2, WHIP := 1, W := 0, SV := 0, SO := 0, IP := 90,
          isExcluded := false, cERA := 2, cWHIP := 1, cW := 0, cSV := 0, cSO := 0,
          vERA := 20, vWHIP := 0, vW := 0, vSV := 0, vSO := 0 },
        { Name := "B", PlayerId := "2", ERA := 2, WHIP := 1, W := 0, SV := 0, SO := 0, IP := 9,
          isExcluded := false, cERA := 2, cWHIP := 1, cW := 0, cSV := 0, cSO := 0,
          vERA := 2, vWHIP := 0, vW := 0, vSV := 0, vSO := 0 },
        { Name := "C", PlayerId := "3", ERA := 8, WHIP := 1, W := 0, SV := 0, SO := 0, IP := 9,
          isExcluded := false, cERA := 8, cWHIP := 1, cW := 0, cSV := 0, cSO := 0,
          vERA := -4, vWHIP := 0, vW := 0, vSV := 0, vSO := 0 } ] := by
    unfold intermediateActiveOf
    rw [hmeans, hact]
    norm_num [impactPlayer]
  have hvm : vMeansOf (intermediateActiveOf rawGood zeroAdj noExcl) =
      { vERA := 6, vWHIP := 0, vW := 0, vSV := 0, vSO := 0 } := by
    rw [hinter]
    norm_num [vMeansOf, meanQ]
  have hvs : vStdsOf jsSqrt (intermediateActiveOf rawGood zeroAdj noExcl) =
      { vERA := 104, vWHIP := 0, vW := 0, vSV := 0, vSO := 0 } := by
    rw [hinter]
    norm_num [vStdsOf, popVarQ, meanQ, jsSqrt]
  have hscored : scoredActiveOf jsSqrt rawGood zeroAdj noExcl =
      [ { Name := "A", PlayerId := "1", ERA := 2, WHIP := 1, W := 0, SV := 0, SO := 0, IP := 90,
          isExcluded := false, cERA := 2, cWHIP := 1, cW := 0, cSV := 0, cSO := 0,
          vERA := 20, vWHIP := 0, vW := 0, vSV := 0, vSO := 0, rawZ := 7/52 },
        { Name := "B", PlayerId := "2", ERA := 2, WHIP := 1, W := 0, SV := 0, SO := 0, IP := 9,
          isExcluded := false, cERA := 2, cWHIP := 1, cW := 0, cSV := 0, cSO := 0,
          vERA := 2, vWHIP := 0, vW := 0, vSV := 0, vSO := 0, rawZ := -1/26 },
        { Name := "C", PlayerId := "3", ERA := 8, WHIP := 1, W := 0, SV := 0, SO := 0, IP := 9,
          isExcluded := false, cERA := 8, cWHIP := 1, cW := 0, cSV := 0, cSO := 0,
          vERA := -4, vWHIP := 0, vW := 0, vSV := 0, vSO := 0, rawZ := -5/52 } ] := by
    unfold scoredActiveOf
    rw [hvm, hvs, hinter]
    norm_num [zscorePlayer, zTerm]
  have hsexc : scoredExcludedOf jsSqrt rawGood zeroAdj noExcl = [] := by
    unfold scoredExcludedOf
    rw [hexc]
    rfl
  have hall2 : allScoredOf jsSqrt rawGood zeroAdj noExcl =
      [ { Name := "A", PlayerId := "1", ERA := 2, WHIP := 1, W := 0, SV := 0, SO := 0, IP := 90,
          isExcluded := false, cERA := 2, cWHIP := 1, cW := 0, cSV := 0, cSO := 0,
          vERA := 20, vWHIP := 0, vW := 0, vSV := 0, vSO := 0, rawZ := 7/52 },
        { Name := "B", PlayerId := "2", ERA := 2, WHIP := 1, W := 0, SV := 0, SO := 0, IP := 9,
          isExcluded := false, cERA := 2, cWHIP := 1, cW := 0, cSV := 0, cSO := 0,
          vERA := 2, vWHIP := 0, vW := 0, vSV := 0, vSO := 0, rawZ := -1/26 },
        { Name := "C", PlayerId := "3", ERA := 8, WHIP := 1, W := 0, SV := 0, SO := 0, IP := 9,
          isExcluded := false, cERA := 8, cWHIP := 1, cW := 0, cSV := 0, cSO := 0,
          vERA := -4, vWHIP := 0, vW := 0, vSV := 0, vSO := 0, rawZ := -5/52 } ] := by
    unfold allScoredOf
    rw [hscored, hsexc]
    norm_num [sortByZ, sortLe, List.enum, List.enumFrom, List.insertionSort, List.orderedInsert]
  have hsao : sortedActiveOnlyOf jsSqrt rawGood zeroAdj noExcl =
      allScoredOf jsSqrt rawGood zeroAdj noExcl := by
    unfold sortedActiveOnlyOf
    rw [hall2]
    simp
  have hrep : replacementLevelZOf jsSqrt rawGood zeroAdj noExcl = -5/52 := by
    unfold replacementLevelZOf
    rw [hsao, hall2]
    norm_num [List.get?]
  have heval : evaluatedPlayersOf jsSqrt rawGood zeroAdj noExcl =
      [ { Name := "A", PlayerId := "1", ERA := 2, WHIP := 1, W := 0, SV := 0, SO := 0, IP := 90,
          isExcluded := false, cERA := 2, cWHIP := 1, cW := 0, cSV := 0, cSO := 0,
          vERA := 20, vWHIP := 0, vW := 0, vSV := 0, vSO := 0, rawZ := 7/52,
          valOverReplacement := 3/13 },
        { Name := "B", PlayerId := "2", ERA := 2, WHIP := 1, W := 0, SV := 0, SO := 0, IP := 9,
          isExcluded := false, cERA := 2, cWHIP := 1, cW := 0, cSV := 0, cSO := 0,
          vERA := 2, vWHIP := 0, vW := 0, vSV := 0, vSO := 0, rawZ := -1/26,
          valOverReplacement := 3/52 },
        { Name := "C", PlayerId := "3", ERA := 8, WHIP := 1, W := 0, SV := 0, SO := 0, IP := 9,
          isExcluded := false, cERA := 8, cWHIP := 1, cW := 0, cSV := 0, cSO := 0,
          vERA := -4, vWHIP := 0, vW := 0, vSV := 0, vSO := 0, rawZ := -5/52,
          valOverReplacement := 0 } ] := by
    unfold evaluatedPlayersOf
    rw [hall2, hrep]
    norm_num
  have hpos : positiveSumOf jsSqrt rawGood zeroAdj noExcl = 15/52 := by
    unfold positiveSumOf
    rw [heval]
    norm_num
  rw [calculateBaseValues_main jsSqrt 1500 hne]
  rw [heval, hpos]
  unfold constantsOf
  rw [hmeans, hvm, hvs, hrep]
  norm_num [valuePlayer, pGoodA, pGoodB, pGoodC, cGood, hpos, hrep]

/-- Demonstration input refuting unconditional workload monotonicity:
entities 1 and 2 are identical except for workload (90 vs 9 innings)
but their shared rate stats are worse than the population means. -/
def rawMono : List RawPlayer :=
  [ { Name := "A", PlayerId := "1", ERA := 5, WHIP := 1, W := 0, SV := 0, SO := 0, IP := some 90 },
    { Name := "B", PlayerId := "2", ERA := 5, WHIP := 1, W := 0, SV := 0, SO := 0, IP := some 9 },
    { Name := "C", PlayerId := "3", ERA := 2, WHIP := 1, W := 0, SV := 0, SO := 0, IP := some 9 } ]

def pMonoC : Player :=
  { Name := "C", PlayerId := "3", ERA := 2, WHIP := 1, W := 0, SV := 0, SO := 0, IP := 9,
    isExcluded := false, cERA := 2, cWHIP := 1, cW := 0, cSV := 0, cSO := 0,
    vERA := 2, vWHIP := 0, vW := 0, vSV := 0, vSO := 0,
    rawZ := 5/26, valOverReplacement := 6/13, Value := 6000/7 }

def pMonoB : Player :=
  { Name := "B", PlayerId := "2", ERA := 5, WHIP := 1, W := 0, SV := 0, SO := 0, IP := 9,
    isExcluded := false, cERA := 5, cWHIP := 1, cW := 0, cSV := 0, cSO := 0,
    vERA := -1, vWHIP := 0, vW := 0, vSV := 0, vSO := 0,
    rawZ := 1/13, valOverReplacement := 9/26, Value := 4500/7 }

def pMonoA : Player :=
  { Name := "A", PlayerId := "1", ERA := 5, WHIP := 1, W := 0, SV := 0, SO := 0, IP := 90,
    isExcluded := false, cERA := 5, cWHIP := 1, cW := 0, cSV := 0, cSO := 0,
    vERA := -10, vWHIP := 0, vW := 0, vSV := 0, vSO := 0,
    rawZ := -7/26, valOverReplacement := 0, Value := 0 }

def cMono : ValConstants :=
  { rateMeansERA := 4, rateMeansWHIP := 1,
    valMeans := { vERA := -3, vWHIP := 0, vW := 0, vSV := 0, vSO := 0 },
    valStds := { vERA := 26, vWHIP := 0, vW := 0, vSV := 0, vSO := 0 },
    replacementLevelZ := -7/26, positiveSum := 21/26 }

set_option maxHeartbeats 2000000 in
theorem rawMono_result :
    calculateBaseValues jsSqrt rawMono zeroAdj 1500 noExcl =
      { players := [pMonoC, pMonoB, pMonoA], constants := ConstantsOut.jfull cMono } := by
  have hact : activePlayersOf rawMono zeroAdj noExcl =
      [ { Name := "A", PlayerId := "1", ERA := 5, WHIP := 1, W := 0, SV := 0, SO := 0, IP := 90,
          isExcluded := false, cERA := 5, cWHIP := 1, cW := 0, cSV := 0, cSO := 0 },
        { Name := "B", PlayerId := "2", ERA := 5, WHIP := 1, W := 0, SV := 0, SO := 0, IP := 9,
          isExcluded := false, cERA := 5, cWHIP := 1, cW := 0, cSV := 0, cSO := 0 },
        { Name := "C", PlayerId := "3", ERA := 2, WHIP := 1, W := 0, SV := 0, SO := 0, IP := 9,
          isExcluded := false, cERA := 2, cWHIP := 1, cW := 0, cSV := 0, cSO := 0 } ] := by
    simp [activePlayersOf, allPlayersOf, augmentPlayer, validRaw, zeroAdj, noExcl, rawMono]
  have hexc : excludedPlayersOf rawMono zeroAdj noExcl = [] := by
    simp [excludedPlayersOf, allPlayersOf, augmentPlayer, validRaw, zeroAdj, noExcl, rawMono]
  have hne : activePlayersOf rawMono zeroAdj noExcl ≠ [] := by
    rw [hact]
    simp
  have hmeans : meansOf (activePlayersOf rawMono zeroAdj noExcl) =
      { ERA := 4, WHIP := 1, W := 0, SV := 0, SO := 0 } := by
    rw [hact]
    norm_num [meansOf, meanQ]
  have hinter : intermediateActiveOf rawMono zeroAdj noExcl =
      [ { Name := "A", PlayerId := "1", ERA := 5, WHIP := 1, W := 0, SV := 0, SO := 0, IP := 90,
          isExcluded := false, cERA := 5, cWHIP := 1, cW := 0, cSV := 0, cSO := 0,
          vERA := -10, vWHIP := 0, vW := 0, vSV := 0, vSO := 0 },
        { Name := "B", PlayerId := "2", ERA := 5, WHIP := 1, W := 0, SV := 0, SO := 0, IP := 9,
          isExcluded := false, cERA := 5, cWHIP := 1, cW := 0, cSV := 0, cSO := 0,
          vERA := -1, vWHIP := 0, vW := 0, vSV := 0, vSO := 0 },
        { Name := "C", PlayerId := "3", ERA := 2, WHIP := 1, W := 0, SV := 0, SO := 0, IP := 9,
          isExcluded := false, cERA := 2, cWHIP := 1, cW := 0, cSV := 0, cSO := 0,
          vERA := 2, vWHIP := 0, vW := 0, vSV := 0, vSO := 0 } ] := by
    unfold intermediateActiveOf
    rw [hmeans, hact]
    norm_num [impactPlayer]
  have hvm : vMeansOf (intermediateActiveOf rawMono zeroAdj noExcl) =
      { vERA := -3, vWHIP := 0, vW := 0, vSV := 0, vSO := 0 } := by
    rw [hinter]
    norm_num [vMeansOf, meanQ]
  have hvs : vStdsOf jsSqrt (intermediateActiveOf rawMono zeroAdj noExcl) =
      { vERA := 26, vWHIP := 0, vW := 0, vSV := 0, vSO := 0 } := by
    rw [hinter]
    norm_num [vStdsOf, popVarQ, meanQ, jsSqrt]
  have hscored : scoredActiveOf jsSqrt rawMono zeroAdj noExcl =
      [ { Name := "A", PlayerId := "1", ERA := 5, WHIP := 1, W := 0, SV := 0, SO := 0, IP := 90,
          isExcluded := false, cERA := 5, cWHIP := 1, cW := 0, cSV := 0, cSO := 0,
          vERA := -10, vWHIP := 0, vW := 0, vSV := 0, vSO := 0, rawZ := -7/26 },
        { Name := "B", PlayerId := "2", ERA := 5, WHIP := 1, W := 0, SV := 0, SO := 0, IP := 9,
          isExcluded := false, cERA := 5, cWHIP := 1, cW := 0, cSV := 0, cSO := 0,
          vERA := -1, vWHIP := 0, vW := 0, vSV := 0, vSO := 0, rawZ := 1/13 },
        { Name := "C", PlayerId := "3", ERA := 2, WHIP := 1, W := 0, SV := 0, SO := 0, IP := 9,
          isExcluded := false, cERA := 2, cWHIP := 1, cW := 0, cSV := 0, cSO := 0,
          vERA := 2, vWHIP := 0, vW := 0, vSV := 0, vSO := 0, rawZ := 5/26 } ] := by
    unfold scoredActiveOf
    rw [hvm, hvs, hinter]
    norm_num [zscorePlayer, zTerm]
  have hsexc : scoredExcludedOf jsSqrt rawMono zeroAdj noExcl = [] := by
    unfold scoredExcludedOf
    rw [hexc]
    rfl
  have hall2 : allScoredOf jsSqrt rawMono zeroAdj noExcl =
      [ { Name := "C", PlayerId := "3", ERA := 2, WHIP := 1, W := 0, SV := 0, SO := 0, IP := 9,
          isExcluded := false, cERA := 2, cWHIP := 1, cW := 0, cSV := 0, cSO := 0,
          vERA := 2, vWHIP := 0, vW := 0, vSV := 0, vSO := 0, rawZ := 5/26 },
        { Name := "B", PlayerId := "2", ERA := 5, WHIP := 1, W := 0, SV := 0, SO := 0, IP := 9,
          isExcluded := false, cERA := 5, cWHIP := 1, cW := 0, cSV := 0, cSO := 0,
          vERA := -1, vWHIP := 0, vW := 0, vSV := 0, vSO := 0, rawZ := 1/13 },
        { Name := "A", PlayerId := "1", ERA := 5, WHIP := 1, W := 0, SV := 0, SO := 0, IP := 90,
          isExcluded := false, cERA := 5, cWHIP := 1, cW := 0, cSV := 0, cSO := 0,
          vERA := -10, vWHIP := 0, vW := 0, vSV := 0, vSO := 0, rawZ := -7/26 } ] := by
    unfold allScoredOf
    rw [hscored, hsexc]
    norm_num [sortByZ, sortLe, List.enum, List.enumFrom, List.insertionSort, List.orderedInsert]
  have hsao : sortedActiveOnlyOf jsSqrt rawMono zeroAdj noExcl =
      allScoredOf jsSqrt rawMono zeroAdj noExcl := by
    unfold sortedActiveOnlyOf
    rw [hall2]
    simp
  have hrep : replacementLevelZOf jsSqrt rawMono zeroAdj noExcl = -7/26 := by
    unfold replacementLevelZOf
    rw [hsao, hall2]
    norm_num [List.get?]
  have heval : evaluatedPlayersOf jsSqrt rawMono zeroAdj noExcl =
      [ { Name := "C", PlayerId := "3", ERA := 2, WHIP := 1, W := 0, SV := 0, SO := 0, IP := 9,
          isExcluded := false, cERA := 2, cWHIP := 1, cW := 0, cSV := 0, cSO := 0,
          vERA := 2, vWHIP := 0, vW := 0, vSV := 0, vSO := 0, rawZ := 5/26,
          valOverReplacement := 6/13 },
        { Name := "B", PlayerId := "2", ERA := 5, WHIP := 1, W := 0, SV := 0, SO := 0, IP := 9,
          isExcluded := false, cERA := 5, cWHIP := 1, cW := 0, cSV := 0, cSO := 0,
          vERA := -1, vWHIP := 0, vW := 0, vSV := 0, vSO := 0, rawZ := 1/13,
          valOverReplacement := 9/26 },
        { Name := "A", PlayerId := "1", ERA := 5, WHIP := 1, W := 0, SV := 0, SO := 0, IP := 90,
          isExcluded := false, cERA := 5, cWHIP := 1, cW := 0, cSV := 0, cSO := 0,
          vERA := -10, vWHIP := 0, vW := 0, vSV := 0, vSO := 0, rawZ := -7/26,
          valOverReplacement := 0 } ] := by
    unfold evaluatedPlayersOf
    rw [hall2, hrep]
    norm_num
  have hpos : positiveSumOf jsSqrt rawMono zeroAdj noExcl = 21/26 := by
    unfold positiveSumOf
    rw [heval]
    norm_num
  rw [calculateBaseValues_main jsSqrt 1500 hne]
  rw [heval, hpos]
  unfold constantsOf
  rw [hmeans, hvm, hvs, hrep]
  norm_num [valuePlayer, pMonoC, pMonoB, pMonoA, cMono, hpos, hrep]

/-- Exclusion set containing exactly the id 1. -/
def exclTie : String → Bool := fun pid => pid == "1"

/-- Demonstration input with two identical entities, the first of them
excluded: both receive composite score 0, so they tie. -/
def rawTie : List RawPlayer :=
  [ { Name := "E1", PlayerId := "1", ERA := 3, WHIP := 1, W := 0, SV := 0, SO := 0, IP := some 9 },
    { Name := "E2", PlayerId := "2", ERA := 3, WHIP := 1, W := 0, SV := 0, SO := 0, IP := some 9 } ]

def pTie2 : Player :=
  { Name := "E2", PlayerId := "2", ERA := 3, WHIP := 1, W := 0, SV := 0, SO := 0, IP := 9,
    isExcluded := false, cERA := 3, cWHIP := 1, cW := 0, cSV := 0, cSO := 0,
    vERA := 0, vWHIP := 0, vW := 0, vSV := 0, vSO := 0,
    rawZ := 0, valOverReplacement := 0, Value := 0 }

def pTie1 : Player :=
  { Name := "E1", PlayerId := "1", ERA := 3, WHIP := 1, W := 0, SV := 0, SO := 0, IP := 9,
    isExcluded := true, cERA := 3, cWHIP := 1, cW := 0, cSV := 0, cSO := 0,
    vERA := 0, vWHIP := 0, vW := 0, vSV := 0, vSO := 0,
    rawZ := 0, valOverReplacement := 0, Value := 0 }

def cTie : ValConstants :=
  { rateMeansERA := 3, rateMeansWHIP := 1,
    valMeans := { vERA := 0, vWHIP := 0, vW := 0, vSV := 0, vSO := 0 },
    valStds := { vERA := 0, vWHIP := 0, vW := 0, vSV := 0, vSO := 0 },
    replacementLevelZ := 0, positiveSum := 0 }

set_option maxHeartbeats 2000000 in
theorem rawTie_result :
    calculateBaseValues jsSqrt rawTie zeroAdj 1500 exclTie =
      { players := [pTie2, pTie1], constants := ConstantsOut.jfull cTie } := by
  have hact : activePlayersOf rawTie zeroAdj exclTie =
      [ { Name := "E2", PlayerId := "2", ERA := 3, WHIP := 1, W := 0, SV := 0, SO := 0, IP := 9,
          isExcluded := false, cERA := 3, cWHIP := 1, cW := 0, cSV := 0, cSO := 0 } ] := by
    simp [activePlayersOf, allPlayersOf, augmentPlayer, validRaw, zeroAdj, exclTie, rawTie]
  have hexc : excludedPlayersOf rawTie zeroAdj exclTie =
      [ { Name := "E1", PlayerId := "1", ERA := 3, WHIP := 1, W := 0, SV := 0, SO := 0, IP := 9,
          isExcluded := true, cERA := 3, cWHIP := 1, cW := 0, cSV := 0, cSO := 0 } ] := by
    simp [excludedPlayersOf, allPlayersOf, augmentPlayer, validRaw, zeroAdj, exclTie, rawTie]
  have hne : activePlayersOf rawTie zeroAdj exclTie ≠ [] := by
    rw [hact]
    simp
  have hmeans : meansOf (activePlayersOf rawTie zeroAdj exclTie) =
      { ERA := 3, WHIP := 1, W := 0, SV := 0, SO := 0 } := by
    rw [hact]
    norm_num [meansOf, meanQ]
  have hinter : intermediateActiveOf rawTie zeroAdj exclTie =
      [ { Name := "E2", PlayerId := "2", ERA := 3, WHIP := 1, W := 0, SV := 0, SO := 0, IP := 9,
          isExcluded := false, cERA := 3, cWHIP := 1, cW := 0, cSV := 0, cSO := 0,
          vERA := 0, vWHIP := 0, vW := 0, vSV := 0, vSO := 0 } ] := by
    unfold intermediateActiveOf
    rw [hmeans, hact]
    norm_num [impactPlayer]
  have hvm : vMeansOf (intermediateActiveOf rawTie zeroAdj exclTie) =
      { vERA := 0, vWHIP := 0, vW := 0, vSV := 0, vSO := 0 } := by
    rw [hinter]
    norm_num [vMeansOf, meanQ]
  have hvs : vStdsOf jsSqrt (intermediateActiveOf rawTie zeroAdj exclTie) =
      { vERA := 0, vWHIP := 0, vW := 0, vSV := 0, vSO := 0 } := by
    rw [hinter]
    norm_num [vStdsOf, popVarQ, meanQ, jsSqrt]
  have hscored : scoredActiveOf jsSqrt rawTie zeroAdj exclTie =
      [ { Name := "E2", PlayerId := "2", ERA := 3, WHIP := 1, W := 0, SV := 0, SO := 0, IP := 9,
          isExcluded := false, cERA := 3, cWHIP := 1, cW := 0, cSV := 0, cSO := 0,
          vERA := 0, vWHIP := 0, vW := 0, vSV := 0, vSO := 0, rawZ := 0 } ] := by
    unfold scoredActiveOf
    rw [hvm, hvs, hinter]
    norm_num [zscorePlayer, zTerm]
  have hsexc : scoredExcludedOf jsSqrt rawTie zeroAdj exclTie =
      [ { Name := "E1", PlayerId := "1", ERA := 3, WHIP := 1, W := 0, SV := 0, SO := 0, IP := 9,
          isExcluded := true, cERA := 3, cWHIP := 1, cW := 0, cSV := 0, cSO := 0,
          vERA := 0, vWHIP := 0, vW := 0, vSV := 0, vSO := 0, rawZ := 0 } ] := by
    unfold scoredExcludedOf
    rw [hvm, hvs, hmeans, hexc]
    norm_num [zscorePlayer, impactPlayer, zTerm]
  have hall2 : allScoredOf jsSqrt rawTie zeroAdj exclTie =
      [ { Name := "E2", PlayerId := "2", ERA := 3, WHIP := 1, W := 0, SV := 0, SO := 0, IP := 9,
          isExcluded := false, cERA := 3, cWHIP := 1, cW := 0, cSV := 0, cSO := 0,
          vERA := 0, vWHIP := 0, vW := 0, vSV := 0, vSO := 0, rawZ := 0 },
        { Name := "E1", PlayerId := "1", ERA := 3, WHIP := 1, W := 0, SV := 0, SO := 0, IP := 9,
          isExcluded := true, cERA := 3, cWHIP := 1, cW := 0, cSV := 0, cSO := 0,
          vERA := 0, vWHIP := 0, vW := 0, vSV := 0, vSO := 0, rawZ := 0 } ] := by
    unfold allScoredOf
    rw [hscored, hsexc]
    norm_num [sortByZ, sortLe, List.enum, List.enumFrom, List.insertionSort, List.orderedInsert]
  have hsao : sortedActiveOnlyOf jsSqrt rawTie zeroAdj exclTie =
      [ { Name := "E2", PlayerId := "2", ERA := 3, WHIP := 1, W := 0, SV := 0, SO := 0, IP := 9,
          isExcluded := false, cERA := 3, cWHIP := 1, cW := 0, cSV := 0, cSO := 0,
          vERA := 0, vWHIP := 0, vW := 0, vSV := 0, vSO := 0, rawZ := 0 } ] := by
    unfold sortedActiveOnlyOf
    rw [hall2]
    simp
  have hrep : replacementLevelZOf jsSqrt rawTie zeroAdj exclTie = 0 := by
    unfold replacementLevelZOf
    rw [hsao]
    norm_num [List.get?]
  have heval : evaluatedPlayersOf jsSqrt rawTie zeroAdj exclTie =
      [ { Name := "E2", PlayerId := "2", ERA := 3, WHIP := 1, W := 0, SV := 0, SO := 0, IP := 9,
          isExcluded := false, cERA := 3, cWHIP := 1, cW := 0, cSV := 0, cSO := 0,
          vERA := 0, vWHIP := 0, vW := 0, vSV := 0, vSO := 0, rawZ := 0,
          valOverReplacement := 0 },
        { Name := "E1", PlayerId := "1", ERA := 3, WHIP := 1, W := 0, SV := 0, SO := 0, IP := 9,
          isExcluded := true, cERA := 3, cWHIP := 1, cW := 0, cSV := 0, cSO := 0,
          vERA := 0, vWHIP := 0, vW := 0, vSV := 0, vSO := 0, rawZ := 0,
          valOverReplacement := 0 } ] := by
    unfold evaluatedPlayersOf
    rw [hall2, hrep]
    norm_num
  have hpos : positiveSumOf jsSqrt rawTie zeroAdj exclTie = 0 := by
    unfold positiveSumOf
    rw [heval]
    norm_num
  rw [calculateBaseValues_main jsSqrt 1500 hne]
  rw [heval, hpos]
  unfold constantsOf
  rw [hmeans, hvm, hvs, hrep]
  norm_num [valuePlayer, pTie2, pTie1, cTie, hpos, hrep]

/-- Committed-adjustment map carrying a single delta: -2 on the ERA of
the entity with id 1. -/
def adjProj : String → Stat → ℚ := fun pid s =>
  if pid = "1" ∧ s = Stat.ERA then -2 else 0

/-- Demonstration input for the projector: with the committed ERA delta
of adjProj, entity 1 scores above replacement in the base run; a
projection that drops the committed map changes its value. -/
def rawProj : List RawPlayer :=
  [ { Name := "A", PlayerId := "1", ERA := 5, WHIP := 1, W := 0, SV := 0, SO := 0, IP := some 9 },
    { Name := "B", PlayerId := "2", ERA := 4, WHIP := 1, W := 0, SV := 0, SO := 0, IP := some 9 },
    { Name := "C", PlayerId := "3", ERA := 2, WHIP := 1, W := 0, SV := 0, SO := 0, IP := some 9 } ]

def pProjC : Player :=
  { Name := "C", PlayerId := "3", ERA := 2, WHIP := 1, W := 0, SV := 0, SO := 0, IP := 9,
    isExcluded := false, cERA := 2, cWHIP := 1, cW := 0, cSV := 0, cSO := 0,
    vERA := 1, vWHIP := 0, vW := 0, vSV := 0, vSO := 0,
    rawZ := 3/2, valOverReplacement := 3, Value := 1000 }

def pProjA : Player :=
  { Name := "A", PlayerId := "1", ERA := 5, WHIP := 1, W := 0, SV := 0, SO := 0, IP := 9,
    isExcluded := false, cERA := 3, cWHIP := 1, cW := 0, cSV := 0, cSO := 0,
    vERA := 0, vWHIP := 0, vW := 0, vSV := 0, vSO := 0,
    rawZ := 0, valOverReplacement := 3/2, Value := 500 }

def pProjB : Player :=
  { Name := "B", PlayerId := "2", ERA := 4, WHIP := 1, W := 0, SV := 0, SO := 0, IP := 9,
    isExcluded := false, cERA := 4, cWHIP := 1, cW := 0, cSV := 0, cSO := 0,
    vERA := -1, vWHIP := 0, vW := 0, vSV := 0, vSO := 0,
    rawZ := -3/2, valOverReplacement := 0, Value := 0 }

def cProj : ValConstants :=
  { rateMeansERA := 3, rateMeansWHIP := 1,
    valMeans := { vERA := 0, vWHIP := 0, vW := 0, vSV := 0, vSO := 0 },
    valStds := { vERA := 2/3, vWHIP := 0, vW := 0, vSV := 0, vSO := 0 },
    replacementLevelZ := -3/2, positiveSum := 9/2 }

set_option maxHeartbeats 2000000 in
theorem rawProj_result :
    calculateBaseValues jsSqrt rawProj adjProj 1500 noExcl =
      { players := [pProjC, pProjA, pProjB], constants := ConstantsOut.jfull cProj } := by
  have hact : activePlayersOf rawProj adjProj noExcl =
      [ { Name := "A", PlayerId := "1", ERA := 5, WHIP := 1, W := 0, SV := 0, SO := 0, IP := 9,
          isExcluded := false, cERA := 3, cWHIP := 1, cW := 0, cSV := 0, cSO := 0 },
        { Name := "B", PlayerId := "2", ERA := 4, WHIP := 1, W := 0, SV := 0, SO := 0, IP := 9,
          isExcluded := false, cERA := 4, cWHIP := 1, cW := 0, cSV := 0, cSO := 0 },
        { Name := "C", PlayerId := "3", ERA := 2, WHIP := 1, W := 0, SV := 0, SO := 0, IP := 9,
          isExcluded := false, cERA := 2, cWHIP := 1, cW := 0, cSV := 0, cSO := 0 } ] := by
    simp [activePlayersOf, allPlayersOf, augmentPlayer, validRaw, adjProj, noExcl, rawProj]
    norm_num
  have hexc : excludedPlayersOf rawProj adjProj noExcl = [] := by
    simp [excludedPlayersOf, allPlayersOf, augmentPlayer, validRaw, adjProj, noExcl, rawProj]
  have hne : activePlayersOf rawProj adjProj noExcl ≠ [] := by
    rw [hact]
    simp
  have hmeans : meansOf (activePlayersOf rawProj adjProj noExcl) =
      { ERA := 3, WHIP := 1, W := 0, SV := 0, SO := 0 } := by
    rw [hact]
    norm_num [meansOf, meanQ]
  have hinter : intermediateActiveOf rawProj adjProj noExcl =
      [ { Name := "A", PlayerId := "1", ERA := 5, WHIP := 1, W := 0, SV := 0, SO := 0, IP := 9,
          isExcluded := false, cERA := 3, cWHIP := 1, cW := 0, cSV := 0, cSO := 0,
          vERA := 0, vWHIP := 0, vW := 0, vSV := 0, vSO := 0 },
        { Name := "B", PlayerId := "2", ERA := 4, WHIP := 1, W := 0, SV := 0, SO := 0, IP := 9,
          isExcluded := false, cERA := 4, cWHIP := 1, cW := 0, cSV := 0, cSO := 0,
          vERA := -1, vWHIP := 0, vW := 0, vSV := 0, vSO := 0 },
        { Name := "C", PlayerId := "3", ERA := 2, WHIP := 1, W := 0, SV := 0, SO := 0, IP := 9,
          isExcluded := false, cERA := 2, cWHIP := 1, cW := 0, cSV := 0, cSO := 0,
          vERA := 1, vWHIP := 0, vW := 0, vSV := 0, vSO := 0 } ] := by
    unfold intermediateActiveOf
    rw [hmeans, hact]
    norm_num [impactPlayer]
  have hvm : vMeansOf (intermediateActiveOf rawProj adjProj noExcl) =
      { vERA := 0, vWHIP := 0, vW := 0, vSV := 0, vSO := 0 } := by
    rw [hinter]
    norm_num [vMeansOf, meanQ]
  have hvs : vStdsOf jsSqrt (intermediateActiveOf rawProj adjProj noExcl) =
      { vERA := 2/3, vWHIP := 0, vW := 0, vSV := 0, vSO := 0 } := by
    rw [hinter]
    norm_num [vStdsOf, popVarQ, meanQ, jsSqrt]
  have hscored : scoredActiveOf jsSqrt rawProj adjProj noExcl =
      [ { Name := "A", PlayerId := "1", ERA := 5, WHIP := 1, W := 0, SV := 0, SO := 0, IP := 9,
          isExcluded := false, cERA := 3, cWHIP := 1, cW := 0, cSV := 0, cSO := 0,
          vERA := 0, vWHIP := 0, vW := 0, vSV := 0, vSO := 0, rawZ := 0 },
        { Name := "B", PlayerId := "2", ERA := 4, WHIP := 1, W := 0, SV := 0, SO := 0, IP := 9,
          isExcluded := false, cERA := 4, cWHIP := 1, cW := 0, cSV := 0, cSO := 0,
          vERA := -1, vWHIP := 0, vW := 0, vSV := 0, vSO := 0, rawZ := -3/2 },
        { Name := "C", PlayerId := "3", ERA := 2, WHIP := 1, W := 0, SV := 0, SO := 0, IP := 9,
          isExcluded := false, cERA := 2, cWHIP := 1, cW := 0, cSV := 0, cSO := 0,
          vERA := 1, vWHIP := 0, vW := 0, vSV := 0, vSO := 0, rawZ := 3/2 } ] := by
    unfold scoredActiveOf
    rw [hvm, hvs, hinter]
    norm_num [zscorePlayer, zTerm]
  have hsexc : scoredExcludedOf jsSqrt rawProj adjProj noExcl = [] := by
    unfold scoredExcludedOf
    rw [hexc]
    rfl
  have hall2 : allScoredOf jsSqrt rawProj adjProj noExcl =
      [ { Name := "C", PlayerId := "3", ERA := 2, WHIP := 1, W := 0, SV := 0, SO := 0, IP := 9,
          isExcluded := false, cERA := 2, cWHIP := 1, cW := 0, cSV := 0, cSO := 0,
          vERA := 1, vWHIP := 0, vW := 0, vSV := 0, vSO := 0, rawZ := 3/2 },
        { Name := "A", PlayerId := "1", ERA := 5, WHIP := 1, W := 0, SV := 0, SO := 0, IP := 9,
          isExcluded := false, cERA := 3, cWHIP := 1, cW := 0, cSV := 0, cSO := 0,
          vERA := 0, vWHIP := 0, vW := 0, vSV := 0, vSO := 0, rawZ := 0 },
        { Name := "B", PlayerId := "2", ERA := 4, WHIP := 1, W := 0, SV := 0, SO := 0, IP := 9,
          isExcluded := false, cERA := 4, cWHIP := 1, cW := 0, cSV := 0, cSO := 0,
          vERA := -1, vWHIP := 0, vW := 0, vSV := 0, vSO := 0, rawZ := -3/2 } ] := by
    unfold allScoredOf
    rw [hscored, hsexc]
    norm_num [sortByZ, sortLe, List.enum, List.enumFrom, List.insertionSort, List.orderedInsert]
  have hsao : sortedActiveOnlyOf jsSqrt rawProj adjProj noExcl =
      allScoredOf jsSqrt rawProj adjProj noExcl := by
    unfold sortedActiveOnlyOf
    rw [hall2]
    simp
  have hrep : replacementLevelZOf jsSqrt rawProj adjProj noExcl = -3/2 := by
    unfold replacementLevelZOf
    rw [hsao, hall2]
    norm_num [List.get?]
  have heval : evaluatedPlayersOf jsSqrt rawProj adjProj noExcl =
      [ { Name := "C", PlayerId := "3", ERA := 2, WHIP := 1, W := 0, SV := 0, SO := 0, IP := 9,
          isExcluded := false, cERA := 2, cWHIP := 1, cW := 0, cSV := 0, cSO := 0,
          vERA := 1, vWHIP := 0, vW := 0, vSV := 0, vSO := 0, rawZ := 3/2,
          valOverReplacement := 3 },
        { Name := "A", PlayerId := "1", ERA := 5, WHIP := 1, W := 0, SV := 0, SO := 0, IP := 9,
          isExcluded := false, cERA := 3, cWHIP := 1, cW := 0, cSV := 0, cSO := 0,
          vERA := 0, vWHIP := 0, vW := 0, vSV := 0, vSO := 0, rawZ := 0,
          valOverReplacement := 3/2 },
        { Name := "B", PlayerId := "2", ERA := 4, WHIP := 1, W := 0, SV := 0, SO := 0, IP := 9,
          isExcluded := false, cERA := 4, cWHIP := 1, cW := 0, cSV := 0, cSO := 0,
          vERA := -1, vWHIP := 0, vW := 0, vSV := 0, vSO := 0, rawZ := -3/2,
          valOverReplacement := 0 } ] := by
    unfold evaluatedPlayersOf
    rw [hall2, hrep]
    norm_num
  have hpos : positiveSumOf jsSqrt rawProj adjProj noExcl = 9/2 := by
    unfold positiveSumOf
    rw [heval]
    norm_num
  rw [calculateBaseValues_main jsSqrt 1500 hne]
  rw [heval, hpos]
  unfold constantsOf
  rw [hmeans, hvm, hvs, hrep]
  norm_num [valuePlayer, pProjC, pProjA, pProjB, cProj, hpos, hrep]

set_option maxHeartbeats 2000000 in
theorem rawProj_projection :
    (applyDisplayAdjustments (calculateBaseValues jsSqrt rawProj adjProj 1500 noExcl).players
        noPending zeroAdj (calculateBaseValues jsSqrt rawProj adjProj 1500 noExcl).constants
        1500).map (fun p => (p.PlayerId, p.Value)) =
      [("3", 1000), ("1", 0), ("2", 0)] := by
  rw [rawProj_result]
  norm_num [applyDisplayAdjustments, projectPlayer, processStat, projZSum, zTerm,
    noPending, zeroAdj, pProjC, pProjA, pProjB, cProj]

/-! ### Auxiliary concrete records for the projector -/

/-- A constants snapshot with all-zero statistics and positive sum 1. -/
def cAny : ValConstants :=
  { rateMeansERA := 0, rateMeansWHIP := 0,
    valMeans := { vERA := 0, vWHIP := 0, vW := 0, vSV := 0, vSO := 0 },
    valStds := { vERA := 0, vWHIP := 0, vW := 0, vSV := 0, vSO := 0 },
    replacementLevelZ := 0, positiveSum := 1 }

/-- An excluded scored entity. -/
def pEx : Player :=
  { Name := "E", PlayerId := "9", ERA := 4, WHIP := 1, W := 0, SV := 0, SO := 0, IP := 9,
    isExcluded := true, cERA := 4, cWHIP := 1, cW := 0, cSV := 0, cSO := 0 }

/-- A pending map with a delta of 5 on the ERA of entity 9. -/
def pendEx : String → Stat → Option ℚ := fun pid s =>
  if pid = "9" ∧ s = Stat.ERA then some 5 else none

/-- An active scored entity. -/
def pActW : Player :=
  { Name := "F", PlayerId := "7", ERA := 4, WHIP := 1, W := 2, SV := 3, SO := 5, IP := 9,
    isExcluded := false, cERA := 4, cWHIP := 1, cW := 2, cSV := 3, cSO := 5 }

/-- A pending map with a delta of 5 on ERA and a delta of 0 on W for
entity 7. -/
def pendW : String → Stat → Option ℚ := fun pid s =>
  if pid = "7" ∧ s = Stat.ERA then some 5
  else if pid = "7" ∧ s = Stat.W then some 0
  else none

/-- A committed map with a delta of 2 on the WHIP of entity 7. -/
def commW : String → Stat → ℚ := fun pid s =>
  if pid = "7" ∧ s = Stat.WHIP then 2 else 0

/-- An input record that is filtered out: its name is empty. -/
def rawInvalid : List RawPlayer :=
  [ { Name := "", PlayerId := "x", ERA := 1, WHIP := 1, W := 0, SV := 0, SO := 0, IP := none } ]

/-! ### Counterexamples -/

/-- C2 (counterexample): the claim projects with an empty pending map
AND an empty committed map while the base run used the non-empty
committed map adjProj; at this input the base value of entity 1 is 500
but the projection returns 0 for it, so the values do not agree. -/
theorem applyDisplayAdjustments_no_edits_counterexample :
    ((applyDisplayAdjustments (calculateBaseValues jsSqrt rawProj adjProj 1500 noExcl).players
        noPending zeroAdj (calculateBaseValues jsSqrt rawProj adjProj 1500 noExcl).constants
        1500).map (fun p => (p.PlayerId, p.Value)) = [("3", 1000), ("1", 0), ("2", 0)]) ∧
    ((calculateBaseValues jsSqrt rawProj adjProj 1500 noExcl).players.map
      (fun p => (p.PlayerId, p.Value)) = [("3", 1000), ("1", 500), ("2", 0)]) ∧
    ((0 : ℚ) ≠ 500) := by
  refine ⟨rawProj_projection, ?_, by norm_num⟩
  rw [rawProj_result]
  norm_num [pProjC, pProjA, pProjB]

/-- C5 (counterexample): entities 1 and 2 are identical in every
committed stat (ERA 5, WHIP 1, W 0, SV 0, SO 0) and differ only in
workload (90 vs 9 innings), yet the higher-workload entity 1 receives
monetary value 0 while entity 2 receives 4500/7 > 0: increasing the
workload of an entity whose rate stats are worse than the population
means lowers its value. -/
theorem workload_monotonicity_counterexample :
    ((calculateBaseValues jsSqrt rawMono zeroAdj 1500 noExcl).players.map
      (fun p => (p.PlayerId, p.IP, p.cERA, p.cWHIP, p.cW, p.cSV, p.cSO, p.Value)) =
      [("3", 9, 2, 1, 0, 0, 0, 6000/7), ("2", 9, 5, 1, 0, 0, 0, 4500/7),
        ("1", 90, 5, 1, 0, 0, 0, 0)]) ∧
    ((9 : ℚ) < 90 ∧ (0 : ℚ) < 4500/7) := by
  refine ⟨?_, by norm_num⟩
  rw [rawMono_result]
  norm_num [pMonoC, pMonoB, pMonoA]

/-- C6 (counterexample): the input lists the excluded entity 1 before
the active entity 2; both receive composite score 0 (an exact tie), but
the output lists entity 2 first — equal scores do not retain the input
relative order when an active and an excluded entity tie. -/
theorem sort_stability_counterexample :
    ((calculateBaseValues jsSqrt rawTie zeroAdj 1500 exclTie).players.map
      (fun p => (p.PlayerId, p.rawZ, p.isExcluded)) = [("2", 0, false), ("1", 0, true)]) ∧
    (rawTie.map (fun r => r.PlayerId) = ["1", "2"]) := by
  refine ⟨?_, by simp [rawTie]⟩
  rw [rawTie_result]
  norm_num [pTie2, pTie1]

/-- C7 (counterexample): on the empty input list the recompute returns
the empty constants object, not the null constants the claim states. -/
theorem empty_input_constants_counterexample :
    calculateBaseValues jsSqrt [] zeroAdj 1500 noExcl =
      { players := [], constants := ConstantsOut.jempty } ∧
    ConstantsOut.jempty ≠ ConstantsOut.jnull :=
  ⟨rfl, by simp⟩

/-- C8 (counterexample): the excluded entity 9 has a pending ERA delta
of 5, but the projector short-circuits excluded entities: its ERA stays
4 (the delta is not applied) and no status is set, contradicting the
claim for every entity. -/
theorem delta_resolution_counterexample :
    ((applyDisplayAdjustments [pEx] pendEx zeroAdj (ConstantsOut.jfull cAny) 1500).map
      (fun p => (p.ERA, p.statusERA)) = [((4 : ℚ), (none : Option String))]) ∧
    (pendEx pEx.PlayerId Stat.ERA = some 5) ∧
    (((4 : ℚ), (none : Option String)) ≠ ((4 + 5 : ℚ), some "pending")) := by
  refine ⟨?_, by simp [pendEx, pEx], by norm_num⟩
  simp [applyDisplayAdjustments, projectPlayer, pEx]

/-! ### Witnesses -/

/-- C1 (witness): on the rawGood run the constants are a full snapshot
with positiveSum 15/52 > 0 and the active monetary values sum to the
pool amount 1500. -/
theorem pool_conservation_witness :
    (((calculateBaseValues jsSqrt rawGood zeroAdj 1500 noExcl).players.filter
        (fun p => !p.isExcluded)).map (fun p => p.Value)).sum = 1500 :=
  (calculateBaseValues_pool_conservation jsSqrt rawGood zeroAdj 1500 noExcl cGood
    (by rw [rawGood_result]) (by norm_num [cGood])).1

/-- C2 (witness): on the rawProj run, projecting with the empty pending
map and the same committed map reproduces every monetary value. -/
theorem applyDisplayAdjustments_no_edits_witness :
    (applyDisplayAdjustments (calculateBaseValues jsSqrt rawProj adjProj 1500 noExcl).players
        noPending adjProj (calculateBaseValues jsSqrt rawProj adjProj 1500 noExcl).constants
        1500).map (fun p => p.Value) =
    (calculateBaseValues jsSqrt rawProj adjProj 1500 noExcl).players.map (fun p => p.Value) :=
  applyDisplayAdjustments_no_edits_same_committed jsSqrt rawProj adjProj 1500 noExcl
    (by rw [rawProj_result]; simp)

/-- C3 (witness): the excluded entity of the rawTie run receives value
0 from the full recompute, and the projector returns value 0 for the
excluded entity pEx. -/
theorem exclusion_semantics_witness :
    pTie1.Value = 0 ∧ ({ pEx with Value := 0 } : Player).Value = 0 := by
  have h := calculateBaseValues_exclusion_semantics jsSqrt rawTie zeroAdj 1500 exclTie
  refine ⟨h.1 pTie1 (by rw [rawTie_result]; simp) rfl, ?_⟩
  exact h.2.2 [pEx] noPending zeroAdj (ConstantsOut.jfull cAny) 1500 (by simp)
    ({ pEx with Value := 0 }) (by simp [applyDisplayAdjustments, projectPlayer, pEx]) rfl

/-- C4 (witness): the rawGood run has 3 active entities, its
replacement score sits at index min(200, 2) = 2 of the sorted active
subset, and the top entity carries rawZ minus that score as its value
above replacement. -/
theorem replacement_cutoff_witness :
    ((calculateBaseValues jsSqrt rawGood zeroAdj 1500 noExcl).players.filter
        (fun p => !p.isExcluded)) ≠ [] ∧
    (((calculateBaseValues jsSqrt rawGood zeroAdj 1500 noExcl).players.filter
        (fun p => !p.isExcluded)).map (fun p => p.rawZ)).get?
      (min 200 (((calculateBaseValues jsSqrt rawGood zeroAdj 1500 noExcl).players.filter
        (fun p => !p.isExcluded)).length - 1)) = some cGood.replacementLevelZ ∧
    pGoodA.valOverReplacement = pGoodA.rawZ - cGood.replacementLevelZ := by
  have h := calculateBaseValues_replacement_cutoff jsSqrt rawGood zeroAdj 1500 noExcl cGood
    (by rw [rawGood_result])
  exact ⟨h.1, h.2.1, h.2.2 pGoodA (by rw [rawGood_result]; simp)⟩

/-- C5 (witness): in the rawGood run entities 1 and 2 share all
committed stats (better than the means) and differ only in workload
(90 vs 9 innings); the higher-workload entity receives at least as
much value (1200 vs 300). -/
theorem workload_monotonicity_witness : pGoodB.Value ≤ pGoodA.Value :=
  workload_monotonicity_above_mean jsSqrt rawGood zeroAdj 1500 noExcl cGood pGoodA pGoodB
    jsSqrt_nonneg (by norm_num) (by rw [rawGood_result])
    (by rw [rawGood_result]; simp) (by rw [rawGood_result]; simp)
    rfl rfl rfl rfl rfl rfl rfl
    (by norm_num [pGoodA, pGoodB]) (by norm_num [pGoodA, cGood]) (by norm_num [pGoodA, cGood])

/-- C6 (witness): the rawGood output is sorted descending by composite
score and its score-0 tie class lists entities exactly as the
active-then-excluded concatenation does. -/
theorem sort_descending_stable_witness :
    ((calculateBaseValues jsSqrt rawGood zeroAdj 1500 noExcl).players).Pairwise
      (fun a b => b.rawZ ≤ a.rawZ) ∧
    (((calculateBaseValues jsSqrt rawGood zeroAdj 1500 noExcl).players.filter
        (fun p => decide (p.rawZ = 0))).map (fun p => p.PlayerId)) =
      (((scoredActiveOf jsSqrt rawGood zeroAdj noExcl ++
          scoredExcludedOf jsSqrt rawGood zeroAdj noExcl).filter
        (fun p => decide (p.rawZ = 0))).map (fun p => p.PlayerId)) := by
  have h := sort_descending_stable_within_partitions jsSqrt rawGood zeroAdj 1500 noExcl cGood
    (by rw [rawGood_result])
  exact ⟨h.1, h.2 0⟩

/-- C7 (witness): a single record lacking a name is filtered out, so
the recompute returns the empty list with the empty constants
object. -/
theorem empty_input_witness :
    calculateBaseValues jsSqrt rawInvalid zeroAdj 1500 noExcl =
      { players := [], constants := ConstantsOut.jempty } :=
  empty_input_returns_empty jsSqrt rawInvalid zeroAdj 1500 noExcl
    (by simp [rawInvalid, validRaw])

/-- C8 (witness): for the active entity 7 with a pending ERA delta of
5, a pending W delta of 0, a committed WHIP delta of 2 and no other
deltas, the projector applies exactly the resolved deltas and sets the
resolved statuses. -/
theorem delta_resolution_witness :
    (applyDisplayAdjustments [pActW] pendW commW (ConstantsOut.jfull cAny) 1500 =
      [pActW].map (projectPlayer pendW commW (some cAny) 1500)) ∧
    (projectPlayer pendW commW (some cAny) 1500 pActW).ERA =
      pActW.ERA + resolvedDelta pendW commW pActW.PlayerId Stat.ERA ∧
    (projectPlayer pendW commW (some cAny) 1500 pActW).WHIP =
      pActW.WHIP + resolvedDelta pendW commW pActW.PlayerId Stat.WHIP ∧
    (projectPlayer pendW commW (some cAny) 1500 pActW).W =
      pActW.W + resolvedDelta pendW commW pActW.PlayerId Stat.W ∧
    (projectPlayer pendW commW (some cAny) 1500 pActW).SV =
      pActW.SV + resolvedDelta pendW commW pActW.PlayerId Stat.SV ∧
    (projectPlayer pendW commW (some cAny) 1500 pActW).SO =
      pActW.SO + resolvedDelta pendW commW pActW.PlayerId Stat.SO ∧
    (projectPlayer pendW commW (some cAny) 1500 pActW).statusERA =
      some (resolvedStatus pendW commW pActW.PlayerId Stat.ERA) ∧
    (projectPlayer pendW commW (some cAny) 1500 pActW).statusWHIP =
      some (resolvedStatus pendW commW pActW.PlayerId Stat.WHIP) ∧
    (projectPlayer pendW commW (some cAny) 1500 pActW).statusW =
      some (resolvedStatus pendW commW pActW.PlayerId Stat.W) ∧
    (projectPlayer pendW commW (some cAny) 1500 pActW).statusSV =
      some (resolvedStatus pendW commW pActW.PlayerId Stat.SV) ∧
    (projectPlayer pendW commW (some cAny) 1500 pActW).statusSO =
      some (resolvedStatus pendW commW pActW.PlayerId Stat.SO) := by
  have h := delta_resolution_active pendW commW cAny 1500 pActW rfl
  exact ⟨h.1 [pActW], h.2.1, h.2.2.1, h.2.2.2.1, h.2.2.2.2.1, h.2.2.2.2.2.1,
    h.2.2.2.2.2.2.1, h.2.2.2.2.2.2.2.1, h.2.2.2.2.2.2.2.2.1,
    h.2.2.2.2.2.2.2.2.2.1, h.2.2.2.2.2.2.2.2.2.2⟩

/-- C9 (witness): a z-term with standard deviation 0 is 0, the
composite score ignores the ERA impact value when the ERA deviation is
0, and the projected score likewise. -/
theorem zero_variance_zterm_witness :
    zTerm 0 3 7 = 0 ∧
    (zscorePlayer { vERA := 0, vWHIP := 0, vW := 0, vSV := 0, vSO := 0 }
        { vERA := 0, vWHIP := 1, vW := 1, vSV := 1, vSO := 1 }
        { pActW with vERA := 42 }).rawZ =
      (zscorePlayer { vERA := 0, vWHIP := 0, vW := 0, vSV := 0, vSO := 0 }
        { vERA := 0, vWHIP := 1, vW := 1, vSV := 1, vSO := 1 } pActW).rawZ ∧
    projZSum cTie 5 1 0 0 0 9 = projZSum cTie 9 1 0 0 0 9 := by
  have h := zero_variance_zterm
  exact ⟨h.1 3 7,
    (h.2.1 { vERA := 0, vWHIP := 0, vW := 0, vSV := 0, vSO := 0 }
      { vERA := 0, vWHIP := 1, vW := 1, vSV := 1, vSO := 1 } pActW 42).1 rfl,
    h.2.2.1 cTie 5 9 1 0 0 0 9 rfl⟩
